import Mathlib

/-! # Sensors and the Vector3 binding: `src/Sensors.cpp` and `src/LuaVector.cpp`

A shallow embedding of the radar contact tracker of `Sensors.cpp` and of the argument
handling of the Lua vector binding of `LuaVector.cpp`. The external collaborators (the
world of bodies, the player singleton, the HUD trail, the Lua stack) are explicit
parameters; a `Body *` that may be null is an `Option Body`, an operation that would
dereference a null pointer yields `none`, and a raised Lua error is an `Except.error`.

Scalars: `distance` (a `double` in the source) and the `time` argument of
`Update` (a `float`) are carried as natural numbers, Lua numbers as integers. The code
only stores, forwards and compares them with `<`.
-/

namespace Pioneer

/-! ## The embedding of `src/Sensors.cpp` -/

/-- Identity of a live `Body` object of the world (the address behind a non-null `Body *`). -/
abbrev Body := Nat

/-- Modelled from the spec: the closed type-tag enumeration `Object::Type` (declared in
`Object.h`, which is not among the sources). The four landmark tags and `SHIP` are the
ones `Sensors.cpp` names. -/
inductive ObjectType where
  | OBJECT
  | BODY
  | DYNAMICBODY
  | SHIP
  | PLAYER
  | SPACESTATION
  | PLANET
  | STAR
  | CARGOBODY
  | CITYONPLANET
  | MISSILE
  deriving DecidableEq

/-- Modelled from the spec: `Ship::FlightState` (declared in `Ship.h`, not among the
sources); `Sensors.cpp` only tests for `FLYING`. -/
inductive FlightState where
  | FLYING
  | DOCKING
  | DOCKED
  | LANDED
  | JUMPING
  | HYPERSPACE
  deriving DecidableEq

/-- Modelled from the spec: the four presentation colours `IFFColor` returns
(`Color::BLUE`, `Color::GREEN`, `Color::RED`, `Color::GRAY` of `Color.h`, not among the
sources). -/
inductive Color where
  | BLUE
  | GREEN
  | RED
  | GRAY
  deriving DecidableEq

/-- The enumeration `Sensors::IFF`. -/
inductive IFF where
  | IFF_UNKNOWN
  | IFF_NEUTRAL
  | IFF_ALLY
  | IFF_HOSTILE
  deriving DecidableEq

/-- The enumeration `Sensors::TargetingCriteria`; `ChooseTarget` never reads its argument. -/
inductive TargetingCriteria where
  | TARGET_NEAREST_HOSTILE
  deriving DecidableEq

/-- Identifier of a reference frame. -/
abbrev FrameId := Int

/-- Modelled from the spec: the "no frame" sentinel passed to `HudTrail::Reset` by `Update`. -/
def noFrameId : FrameId := -1

/-- One call received by a trail after its construction. -/
inductive TrailCall where
  | Update (time : Nat)
  | Reset (frame : FrameId)
  deriving DecidableEq

/-- Modelled from the spec: the trail handle `HudTrail` (`HudTrail.cpp` is not among the
sources). It is bound to a body, has a colour, and records the `Update` and `Reset`
calls it received, oldest first. -/
structure HudTrail where
  body : Body
  color : Color
  calls : List TrailCall
  deriving DecidableEq

/-- Modelled from the spec: `new HudTrail(body, color)`, bound to a body, initial colour set. -/
def HudTrail.new (body : Body) (color : Color) : HudTrail :=
  { body := body, color := color, calls := [] }

/-- Modelled from the spec: `HudTrail::SetColor` changes the colour and nothing else. -/
def HudTrail.SetColor (t : HudTrail) (c : Color) : HudTrail :=
  { t with color := c }

/-- Modelled from the spec: `HudTrail::Update(time)` advances the trail; the colour stays. -/
def HudTrail.Update (t : HudTrail) (time : Nat) : HudTrail :=
  { t with calls := t.calls ++ [TrailCall.Update time] }

/-- Modelled from the spec: `HudTrail::Reset(frame)` clears the history; the colour stays. -/
def HudTrail.Reset (t : HudTrail) (frame : FrameId) : HudTrail :=
  { t with calls := t.calls ++ [TrailCall.Reset frame] }

/-- The world as one operation of `Sensors` sees it: the external collaborators the
code calls through `Pi::player`, `Pi::game->GetSpace()` and the `Body`/`Ship` methods. -/
structure World where
  /-- The global `Pi::player`. -/
  player : Body
  /-- The frame returned by `Pi::player->GetFrame()`. -/
  playerFrame : FrameId
  /-- The virtual `body->IsType(t)`. -/
  IsType : Body → ObjectType → Bool
  /-- The virtual `body->GetType()`. -/
  GetType : Body → ObjectType
  /-- The method `body->IsDead()`. -/
  IsDead : Body → Bool
  /-- The flight state seen through `dynamic_cast<Ship *>(body)`: `none` when the cast fails,
  else `GetFlightState()` of the ship. -/
  shipFlightState : Body → Option FlightState
  /-- The value `a->GetRelations(b)`, before the conversion to `Uint8`. -/
  GetRelations : Body → Body → Nat
  /-- The magnitude `a->GetPositionRelTo(b).Length()`. -/
  relPosLength : Body → Body → Nat
  /-- The list `GetSpace()->GetBodiesMaybeNear(b, radius)`. -/
  GetBodiesMaybeNear : Body → Nat → List Body
  /-- The list `GetSpace()->GetBodies()`. -/
  GetBodies : List Body

/-- The record `Sensors::RadarContact`. -/
structure RadarContact where
  body : Option Body
  trail : Option HudTrail
  distance : Nat
  iff : IFF
  fresh : Bool
  deriving DecidableEq

/-- The default constructor `RadarContact::RadarContact()`. -/
def RadarContact.new : RadarContact :=
  { body := none, trail := none, distance := 0, iff := IFF.IFF_UNKNOWN, fresh := true }

/-- The constructor `RadarContact::RadarContact(Body *b)`. -/
def RadarContact.ofBody (b : Option Body) : RadarContact :=
  { body := b, trail := none, distance := 0, iff := IFF.IFF_UNKNOWN, fresh := true }

/-- The function `Sensors::IFFColor`. -/
def IFFColor : IFF → Color
  | IFF.IFF_NEUTRAL => Color.BLUE
  | IFF.IFF_ALLY => Color.GREEN
  | IFF.IFF_HOSTILE => Color.RED
  | IFF.IFF_UNKNOWN => Color.GRAY

/-- The comparator `Sensors::ContactDistanceSort`. -/
def ContactDistanceSort (a b : RadarContact) : Bool :=
  decide (a.distance < b.distance)

/-- Insertion step of `listSort`: `x` stood before every element of the already sorted list
and goes after exactly the elements that compare strictly before it. -/
def sortedInsert {α : Type} (comp : α → α → Bool) (x : α) : List α → List α
  | [] => [x]
  | y :: ys => if comp y x then y :: sortedInsert comp x ys else x :: y :: ys

/-- The library call `std::list::sort(comp)`: the stable sort by a strict comparator
(equivalent elements keep their relative order). -/
def listSort {α : Type} (comp : α → α → Bool) : List α → List α
  | [] => []
  | x :: xs => sortedInsert comp x (listSort comp xs)

/-- The state of a `Sensors` object. -/
structure Sensors where
  m_owner : Body
  m_radarContacts : List RadarContact
  m_staticContacts : List RadarContact
  deriving DecidableEq

/-- The constructor `Sensors::Sensors(Ship *owner)`: both contact lists start empty. -/
def Sensors.new (owner : Body) : Sensors :=
  { m_owner := owner, m_radarContacts := [], m_staticContacts := [] }

/-- The function `Sensors::CheckIFF` on a non-null `other`; `rel` is a `Uint8`. It reads
the owner and the world and writes nothing. -/
def CheckIFF (w : World) (m_owner : Body) (other : Body) : IFF :=
  if w.IsType other ObjectType.SHIP then
    let rel := w.GetRelations m_owner other % 256
    if rel = 0 then IFF.IFF_HOSTILE
    else if rel = 100 then IFF.IFF_ALLY
    else IFF.IFF_NEUTRAL
  else IFF.IFF_UNKNOWN

/-- The member function `Sensors::CheckIFF` in state-passing form: the class it returns and
the state it leaves. The source assigns no member. -/
def Sensors.CheckIFF (s : Sensors) (w : World) (other : Body) : IFF × Sensors :=
  (Pioneer.CheckIFF w s.m_owner other, s)

/-- The scan loop of `ChooseTarget` (lines 66-77): the body of the first contact whose body
is a ship, `some none` when the loop ends without a match, `none` when a null body is
dereferenced on the way. -/
def scanTarget (w : World) : List RadarContact → Option (Option Body)
  | [] => some none
  | c :: cs =>
    match c.body with
    | none => none
    | some b => if w.IsType b ObjectType.SHIP then some (some b) else scanTarget w cs

/-- The function `Sensors::ChooseTarget`. `combatTarget` is the owner's combat target before
the call; the result is the new state, the owner's combat target after the call and the
returned flag. -/
def Sensors.ChooseTarget (s : Sensors) (w : World) (_crit : TargetingCriteria)
    (combatTarget : Option Body) : Option (Sensors × Option Body × Bool) :=
  let sorted := listSort ContactDistanceSort s.m_radarContacts
  match scanTarget w sorted with
  | none => none
  | some none => some ({ s with m_radarContacts := sorted }, combatTarget, false)
  | some (some b) => some ({ s with m_radarContacts := sorted }, some b, true)

/-- Lines 112-116 and 126 of `Update`: find the first contact whose body is `body` and set
its `fresh`; `none` when the search reaches the end of the list. -/
def refreshFound (body : Body) : List RadarContact → Option (List RadarContact)
  | [] => none
  | c :: cs =>
    if c.body = some body then some ({ c with fresh := true } :: cs)
    else (refreshFound body cs).map (fun cs' => c :: cs')

/-- Lines 120-124 of `Update`: the record appended for a body without a contact. -/
def newContact (w : World) (m_owner : Body) (body : Body) : RadarContact :=
  let rc := RadarContact.new
  let rc := { rc with body := some body }
  let rc := { rc with iff := CheckIFF w m_owner body }
  { rc with trail := some (HudTrail.new body (IFFColor rc.iff)) }

/-- One iteration of the loop over `nearby` (lines 108-128 of `Update`). -/
def markBody (w : World) (m_owner : Body) (cs : List RadarContact) (body : Body) :
    List RadarContact :=
  if body = m_owner || !w.IsType body ObjectType.SHIP then cs
  else if w.IsDead body then cs
  else
    match refreshFound body cs with
    | none => cs ++ [newContact w m_owner body]
    | some cs' => cs'

/-- The loop over `nearby` (lines 108-128 of `Update`). -/
def markNearby (w : World) (m_owner : Body) (cs : List RadarContact) (nearby : List Body) :
    List RadarContact :=
  nearby.foldl (markBody w m_owner) cs

/-- The update of one fresh contact in the second loop of `Update` (lines 136-143), given
its trail. A null body fails the `dynamic_cast` and takes the `else` branch. -/
def refreshContact (w : World) (m_owner : Body) (time : Nat) (c : RadarContact)
    (tr : HudTrail) : RadarContact :=
  let c :=
    match c.body with
    | none => { c with trail := some (tr.Reset noFrameId) }
    | some b =>
      if w.shipFlightState b = some FlightState.FLYING then
        { c with distance := w.relPosLength m_owner b, trail := some (tr.Update time) }
      else { c with trail := some (tr.Reset noFrameId) }
  { c with fresh := false }

/-- The second loop of `Update` (lines 131-146): stale contacts are erased, fresh ones
updated; `none` when a null trail is dereferenced. -/
def sweep (w : World) (m_owner : Body) (time : Nat) :
    List RadarContact → Option (List RadarContact)
  | [] => some []
  | c :: cs =>
    if !c.fresh then sweep w m_owner time cs
    else
      match c.trail with
      | none => none
      | some tr => (sweep w m_owner time cs).map (fun cs' => refreshContact w m_owner time c tr :: cs')

/-- The function `Sensors::PopulateStaticContacts`, as the list it leaves in
`m_staticContacts`. -/
def PopulateStaticContacts (w : World) : List RadarContact :=
  w.GetBodies.foldl
    (fun acc b =>
      match w.GetType b with
      | ObjectType.STAR | ObjectType.PLANET | ObjectType.CITYONPLANET
      | ObjectType.SPACESTATION =>
        let rc := RadarContact.ofBody (some b)
        acc ++ [{ rc with fresh := true }]
      | _ => acc)
    []

/-- The function `Sensors::Update`. -/
def Sensors.Update (s : Sensors) (w : World) (time : Nat) : Option Sensors :=
  if s.m_owner ≠ w.player then some s
  else
    let statics := PopulateStaticContacts w
    let nearby := w.GetBodiesMaybeNear s.m_owner 100000
    let marked := markNearby w s.m_owner s.m_radarContacts nearby
    (sweep w s.m_owner time marked).map
      (fun cs => { s with m_radarContacts := cs, m_staticContacts := statics })

/-- The body of the loop of `UpdateIFF` (lines 153-156) on one contact; `none` when `b` or
the trail is null where it is dereferenced. -/
def updateIFFContact (w : World) (m_owner : Body) (b : Option Body) (c : RadarContact) :
    Option RadarContact :=
  if c.body = b then
    match b with
    | none => none
    | some b' =>
      let c := { c with iff := CheckIFF w m_owner b' }
      match c.trail with
      | none => none
      | some tr => some { c with trail := some (tr.SetColor (IFFColor c.iff)) }
  else some c

/-- The loop of `UpdateIFF` over the dynamic contacts. -/
def updateIFFList (w : World) (m_owner : Body) (b : Option Body) :
    List RadarContact → Option (List RadarContact)
  | [] => some []
  | c :: cs =>
    match updateIFFContact w m_owner b c with
    | none => none
    | some c' => (updateIFFList w m_owner b cs).map (fun cs' => c' :: cs')

/-- The function `Sensors::UpdateIFF`. -/
def Sensors.UpdateIFF (s : Sensors) (w : World) (b : Option Body) : Option Sensors :=
  (updateIFFList w s.m_owner b s.m_radarContacts).map
    (fun cs => { s with m_radarContacts := cs })

/-- The loop of `ResetTrails`; `none` when a null trail is dereferenced. -/
def resetTrailsList (w : World) : List RadarContact → Option (List RadarContact)
  | [] => some []
  | c :: cs =>
    match c.trail with
    | none => none
    | some tr =>
      (resetTrailsList w cs).map (fun cs' => { c with trail := some (tr.Reset w.playerFrame) } :: cs')

/-- The function `Sensors::ResetTrails`. -/
def Sensors.ResetTrails (s : Sensors) (w : World) : Option Sensors :=
  (resetTrailsList w s.m_radarContacts).map (fun cs => { s with m_radarContacts := cs })

/-- States reachable from a newly constructed `Sensors` by the four operations, each run
against an arbitrary world. -/
inductive Reachable : Sensors → Prop where
  | init (owner : Body) : Reachable (Sensors.new owner)
  | update {s s' : Sensors} (w : World) (time : Nat) :
      Reachable s → s.Update w time = some s' → Reachable s'
  | chooseTarget {s s' : Sensors} (w : World) (crit : TargetingCriteria)
      (tgt tgt' : Option Body) (found : Bool) :
      Reachable s → s.ChooseTarget w crit tgt = some (s', tgt', found) → Reachable s'
  | updateIFF {s s' : Sensors} (w : World) (b : Option Body) :
      Reachable s → s.UpdateIFF w b = some s' → Reachable s'
  | resetTrails {s s' : Sensors} (w : World) :
      Reachable s → s.ResetTrails w = some s' → Reachable s'

/-- A run of `Update` calls, one per tick, each against its own world. -/
def runUpdates : Sensors → List (World × Nat) → Option Sensors
  | s, [] => some s
  | s, (w, time) :: rest => (s.Update w time).bind (fun s' => runUpdates s' rest)

/-- The bodies of the records the first loop of `Update` appends, in the order of their
insertion (none when the owner is not the player). -/
def insertedBodies (s : Sensors) (w : World) : List (Option Body) :=
  if s.m_owner ≠ w.player then []
  else
    ((markNearby w s.m_owner s.m_radarContacts (w.GetBodiesMaybeNear s.m_owner 100000)).drop
      s.m_radarContacts.length).map (fun c => c.body)

/-- Reachable states together with the insertion order of their records: in
`InsertionOrder s order` the list `order` holds the bodies of the dynamic contacts of `s`
from the record inserted first to the record inserted last. `Update` drops the bodies of
the erased records and appends the bodies of the inserted ones; the other operations
insert and erase nothing. -/
inductive InsertionOrder : Sensors → List (Option Body) → Prop where
  | init (owner : Body) : InsertionOrder (Sensors.new owner) []
  | update {s s' : Sensors} {order : List (Option Body)} (w : World) (time : Nat) :
      InsertionOrder s order → s.Update w time = some s' →
      InsertionOrder s'
        ((order ++ insertedBodies s w).filter
          (fun b => decide (b ∈ s'.m_radarContacts.map (fun c => c.body))))
  | chooseTarget {s s' : Sensors} {order : List (Option Body)} (w : World)
      (crit : TargetingCriteria) (tgt tgt' : Option Body) (found : Bool) :
      InsertionOrder s order → s.ChooseTarget w crit tgt = some (s', tgt', found) →
      InsertionOrder s' order
  | updateIFF {s s' : Sensors} {order : List (Option Body)} (w : World) (b : Option Body) :
      InsertionOrder s order → s.UpdateIFF w b = some s' → InsertionOrder s' order
  | resetTrails {s s' : Sensors} {order : List (Option Body)} (w : World) :
      InsertionOrder s order → s.ResetTrails w = some s' → InsertionOrder s' order

/-! ## The embedding of `src/LuaVector.cpp` -/

/-- A Lua number (a `double` in the source), carried as an integer: the vector binding only
copies the numbers it reads. -/
abbrev LuaNumber := Int

/-- The value type `vector2d`. -/
structure vector2d where
  x : LuaNumber
  y : LuaNumber
  deriving DecidableEq

/-- The value type `vector3d`. -/
structure vector3d where
  x : LuaNumber
  y : LuaNumber
  z : LuaNumber
  deriving DecidableEq

/-- A value on the Lua stack: nil, a boolean, a number, a string, a userdata of type Vector2
or Vector3, or any other value (a table, a function, another userdata). -/
inductive LuaValue where
  | nil
  | boolean (b : Bool)
  | number (n : LuaNumber)
  | string (s : String)
  | vector2 (v : vector2d)
  | vector3 (v : vector3d)
  | other
  deriving DecidableEq

/-- A raised Lua error: a failed argument check of `luaL_checknumber` or `luaL_checkudata` at
a stack index, or one of the two `luaL_error` calls of the index functions. -/
inductive LuaError where
  | badArgument (idx : Nat)
  | indexNotAvailable (attr : String)
  | expectedVector
  deriving DecidableEq

/-- The value at a stack index (1 is the bottom), `none` for an index above the top. -/
def lua_at (L : List LuaValue) (idx : Nat) : Option LuaValue :=
  if idx = 0 then none else L[idx - 1]?

/-- The library call `lua_gettop`: the number of values on the stack. -/
def lua_gettop (L : List LuaValue) : Nat :=
  L.length

/-- The number a value converts to: a number is itself, a string is converted by `cvt` (the
string-to-number coercion of Lua), nothing else converts. -/
def toNumber (cvt : String → Option LuaNumber) : LuaValue → Option LuaNumber
  | LuaValue.number n => some n
  | LuaValue.string s => cvt s
  | _ => none

/-- The library call `luaL_checknumber`: the number at the index, or an argument error. -/
def luaL_checknumber (cvt : String → Option LuaNumber) (L : List LuaValue) (idx : Nat) :
    Except LuaError LuaNumber :=
  match (lua_at L idx).bind (toNumber cvt) with
  | some n => Except.ok n
  | none => Except.error (LuaError.badArgument idx)

/-- The library call `luaL_optnumber`: the default when the index holds nothing or nil,
else as `luaL_checknumber`. -/
def luaL_optnumber (cvt : String → Option LuaNumber) (L : List LuaValue) (idx : Nat)
    (d : LuaNumber) : Except LuaError LuaNumber :=
  match lua_at L idx with
  | none => Except.ok d
  | some LuaValue.nil => Except.ok d
  | some _ => luaL_checknumber cvt L idx

/-- Modelled from the spec: `LuaVector2::GetFromLua` (`LuaVector2.cpp` is not among the
sources), taken as its sibling `LuaVector::GetFromLua`: the Vector2 userdata at the index,
or null. -/
def LuaVector2.GetFromLua (L : List LuaValue) (idx : Nat) : Option vector2d :=
  match lua_at L idx with
  | some (LuaValue.vector2 v) => some v
  | _ => none

/-- The function `LuaVector::CheckFromLua`: the Vector3 userdata at the index, or an argument
error. -/
def LuaVector.CheckFromLua (L : List LuaValue) (idx : Nat) : Except LuaError vector3d :=
  match lua_at L idx with
  | some (LuaValue.vector3 v) => Except.ok v
  | _ => Except.error (LuaError.badArgument idx)

/-- The function `construct_vec3`. -/
def construct_vec3 (cvt : String → Option LuaNumber) (L : List LuaValue) :
    Except LuaError vector3d :=
  match LuaVector2.GetFromLua L 2 with
  | some vec2 =>
    match luaL_optnumber cvt L 3 0 with
    | Except.error e => Except.error e
    | Except.ok z => Except.ok { x := vec2.x, y := vec2.y, z := z }
  | none =>
    match luaL_checknumber cvt L 2 with
    | Except.error e => Except.error e
    | Except.ok x =>
      if lua_gettop L = 2 then Except.ok { x := x, y := x, z := x }
      else
        match luaL_checknumber cvt L 3 with
        | Except.error e => Except.error e
        | Except.ok y =>
          match luaL_checknumber cvt L 4 with
          | Except.error e => Except.error e
          | Except.ok z => Except.ok { x := x, y := y, z := z }

/-- The function `l_vector_call`: the vector it pushes. -/
def l_vector_call (cvt : String → Option LuaNumber) (L : List LuaValue) :
    Except LuaError LuaValue :=
  match construct_vec3 cvt L with
  | Except.error e => Except.error e
  | Except.ok v => Except.ok (LuaValue.vector3 v)

/-- The function `l_vector_set`: the value it stores in the Vector3 at index 1. -/
def l_vector_set (cvt : String → Option LuaNumber) (L : List LuaValue) :
    Except LuaError vector3d :=
  match construct_vec3 cvt L with
  | Except.error e => Except.error e
  | Except.ok v =>
    match LuaVector.CheckFromLua L 1 with
    | Except.error e => Except.error e
    | Except.ok _ => Except.ok v

/-- The character `attr[0]` of a key: its first character, NUL for the empty string. -/
def firstChar (attr : String) : Char :=
  attr.data.headD (Char.ofNat 0)

/-- The function `l_vector_new_index`: the content of the Vector3 at index 1 after the call,
which is also the vector it pushes. -/
def l_vector_new_index (cvt : String → Option LuaNumber) (L : List LuaValue) :
    Except LuaError vector3d :=
  match LuaVector.CheckFromLua L 1 with
  | Except.error e => Except.error e
  | Except.ok v =>
    match lua_at L 2 with
    | some (LuaValue.string attr) =>
      if firstChar attr = 'x' then
        match luaL_checknumber cvt L 3 with
        | Except.error e => Except.error e
        | Except.ok n => Except.ok { v with x := n }
      else if firstChar attr = 'y' then
        match luaL_checknumber cvt L 3 with
        | Except.error e => Except.error e
        | Except.ok n => Except.ok { v with y := n }
      else if firstChar attr = 'z' then
        match luaL_checknumber cvt L 3 with
        | Except.error e => Except.error e
        | Except.ok n => Except.ok { v with z := n }
      else Except.error (LuaError.indexNotAvailable attr)
    | _ => Except.error LuaError.expectedVector

/-- What `l_vector_index` pushes: a component of the vector (lines 177, 180, 183) or the
entry of the metatable under the key (lines 190-193). -/
inductive IndexResult where
  | component (n : LuaNumber)
  | metafield (v : LuaValue)
  deriving DecidableEq

/-- The function `l_vector_index`; `mt` is the raw lookup in the metatable of the Vector3 and
`len` of the source is the length of the key in bytes. -/
def l_vector_index (mt : LuaValue → LuaValue) (L : List LuaValue) :
    Except LuaError IndexResult :=
  match LuaVector.CheckFromLua L 1 with
  | Except.error e => Except.error e
  | Except.ok v =>
    match lua_at L 2 with
    | some (LuaValue.string attr) =>
      if attr.utf8ByteSize = 1 then
        if firstChar attr = 'x' then Except.ok (IndexResult.component v.x)
        else if firstChar attr = 'y' then Except.ok (IndexResult.component v.y)
        else if firstChar attr = 'z' then Except.ok (IndexResult.component v.z)
        else Except.ok (IndexResult.metafield (mt (LuaValue.string attr)))
      else Except.ok (IndexResult.metafield (mt (LuaValue.string attr)))
    | _ => Except.error LuaError.expectedVector

/-! ## Auxiliary definitions of the proofs -/

/-- Whether the body of a contact is a ship in the given world (false for a null body). -/
def isShipContact (w : World) (c : RadarContact) : Bool :=
  match c.body with
  | none => false
  | some b => w.IsType b ObjectType.SHIP

/-- The filter of the first loop of `Update` (lines 109-110): the body is not skipped. -/
def observed (w : World) (m_owner : Body) (b : Body) : Bool :=
  !(decide (b = m_owner) || !w.IsType b ObjectType.SHIP) && !w.IsDead b

/-- The trail of a contact is present and has the colour of the contact's class. -/
def TrailOk (c : RadarContact) : Prop :=
  ∃ tr, c.trail = some tr ∧ tr.color = IFFColor c.iff

/-- The update the second loop of `Update` applies to a fresh contact that has a trail. -/
def refreshed (w : World) (m_owner : Body) (time : Nat) (c : RadarContact) : RadarContact :=
  match c.trail with
  | none => c
  | some tr => refreshContact w m_owner time c tr

/-- The effect of the loop body of `UpdateIFF(b)` on a contact, for a non-null `b`. -/
def reclassified (w : World) (m_owner : Body) (b : Body) (c : RadarContact) : RadarContact :=
  if c.body = some b then
    { c with
      iff := CheckIFF w m_owner b
      trail := c.trail.map (fun tr => tr.SetColor (IFFColor (CheckIFF w m_owner b))) }
  else c

/-- The effect of the loop body of `ResetTrails` on a contact. -/
def trailReset (w : World) (c : RadarContact) : RadarContact :=
  { c with trail := c.trail.map (fun tr => tr.Reset w.playerFrame) }

/-- Invariant of the first loop of `Update`: bodies are non-null and pairwise distinct, every
trail is present and coloured by class, and a contact is fresh exactly when its body
satisfies `P`; every body satisfying `P` has a contact. -/
def MarkInv (P : Body → Prop) (cs : List RadarContact) : Prop :=
  (cs.map (fun c => c.body)).Nodup ∧
  (∀ c ∈ cs, ∃ b, c.body = some b ∧ (c.fresh = true ↔ P b) ∧ TrailOk c) ∧
  (∀ b, P b → ∃ c ∈ cs, c.body = some b)

/-- Invariant of the reachable states: the bodies of the dynamic contacts are non-null and
pairwise distinct, no contact is marked fresh, every trail is present and coloured by
class. -/
def Inv (s : Sensors) : Prop :=
  (s.m_radarContacts.map (fun c => c.body)).Nodup ∧
  ∀ c ∈ s.m_radarContacts, c.fresh = false ∧ c.body ≠ none ∧ TrailOk c

/-! ## Auxiliary definitions for the order of the records -/

/-- A contact with its `fresh` flag set, as line 126 of `Update` leaves it. -/
def setFresh (c : RadarContact) : RadarContact :=
  { c with fresh := true }

/-- Whether some contact of the list refers to the body. -/
def referred (cs : List RadarContact) (b : Body) : Bool :=
  decide (some b ∈ cs.map (fun c => c.body))

/-- The bodies of a list in the order of their first occurrence, each once. -/
def firstOccurrences : List Body → List Body
  | [] => []
  | b :: bs => b :: (firstOccurrences bs).filter (fun x => decide (x ≠ b))

/-- The bodies for which the first loop of `Update` appends a record, in the order of
insertion: the bodies of the query result that pass the filter and that no contact of the
list refers to, in the order of their first occurrence in the query result. -/
def insertedList (w : World) (m_owner : Body) (cs : List RadarContact) (nearby : List Body) :
    List Body :=
  firstOccurrences (nearby.filter (fun b => observed w m_owner b && !referred cs b))

/-- The relation between a contact before and after the first loop of `Update`: the record
is the same, or the same with its `fresh` flag set. -/
def MarkRel (c c' : RadarContact) : Prop :=
  c' = c ∨ c' = setFresh c

/-- Whether the first loop of `Update` finds the body of the contact in the query result and
does not skip it. -/
def reobserved (w : World) (m_owner : Body) (nearby : List Body) (c : RadarContact) : Bool :=
  match c.body with
  | none => false
  | some b => decide (b ∈ nearby) && observed w m_owner b

/-! ## Auxiliary definitions for the static contacts -/

/-- Whether `PopulateStaticContacts` keeps the body: its type is one of the four landmark
types of the `switch` (lines 173-181). -/
def isLandmark (w : World) (b : Body) : Bool :=
  match w.GetType b with
  | ObjectType.STAR | ObjectType.PLANET | ObjectType.CITYONPLANET
  | ObjectType.SPACESTATION => true
  | _ => false

/-- The static record of a body: that body, no trail, distance 0, class Unknown, fresh. -/
def staticRecord (b : Body) : RadarContact :=
  { body := some b, trail := none, distance := 0, iff := IFF.IFF_UNKNOWN, fresh := true }

/-! ## The argument shapes of `construct_vec3` -/

/-- The arguments are exactly one numeric value. -/
def IsOneNumber (cvt : String → Option LuaNumber) (args : List LuaValue) : Prop :=
  ∃ a x, args = [a] ∧ toNumber cvt a = some x

/-- The arguments are exactly three numeric values. -/
def IsThreeNumbers (cvt : String → Option LuaNumber) (args : List LuaValue) : Prop :=
  ∃ a b c x y z, args = [a, b, c] ∧ toNumber cvt a = some x ∧ toNumber cvt b = some y ∧
    toNumber cvt c = some z

/-- The arguments are a Vector2, alone or followed by one numeric value. -/
def IsVector2OptNumber (cvt : String → Option LuaNumber) (args : List LuaValue) : Prop :=
  ∃ v, args = [LuaValue.vector2 v] ∨ ∃ c z, args = [LuaValue.vector2 v, c] ∧
    toNumber cvt c = some z

/-! ## Example worlds and states -/

/-- A world for the examples: bodies 2, 3 and 4 are flying ships, body 1 is the player, the
query returns 2, 3, 2, 1, 12 and 4, and the ships stand at 500, 200 and 800. -/
def exampleWorld : World :=
  { player := 1
    playerFrame := 7
    IsType := fun b t => decide (t = ObjectType.SHIP) && decide (b < 10)
    GetType := fun b => if b < 10 then ObjectType.SHIP else ObjectType.PLANET
    IsDead := fun _ => false
    shipFlightState := fun b => if b < 10 then some FlightState.FLYING else none
    GetRelations := fun _ b => if b = 2 then 0 else if b = 3 then 100 else 50
    relPosLength := fun _ b => if b = 2 then 500 else if b = 3 then 200 else 800
    GetBodiesMaybeNear := fun _ _ => [2, 3, 2, 1, 12, 4]
    GetBodies := [1, 2, 3, 12] }

/-- A later world for the examples: as `exampleWorld`, but the ships 2 and 3 both stand at
200 and ship 2 has the relations value 100. -/
def exampleWorld2 : World :=
  { exampleWorld with
    GetRelations := fun _ b => if b = 2 then 100 else if b = 3 then 100 else 50
    relPosLength := fun _ b => if b = 2 then 200 else if b = 3 then 200 else 800 }

/-- A world for the examples in which ship 2 has left the query result and ship 4 is dead:
as `exampleWorld2`, but the query returns 3, 4 and 12. -/
def exampleWorld3 : World :=
  { exampleWorld2 with
    IsDead := fun b => decide (b = 4)
    GetBodiesMaybeNear := fun _ _ => [3, 4, 12] }

/-- A list of three ship contacts at the distances 500, 200 and 800. -/
def exampleContacts : List RadarContact :=
  [ { body := some 2, trail := some (HudTrail.new 2 Color.RED), distance := 500,
      iff := IFF.IFF_HOSTILE, fresh := false },
    { body := some 3, trail := some (HudTrail.new 3 Color.GREEN), distance := 200,
      iff := IFF.IFF_ALLY, fresh := false },
    { body := some 4, trail := some (HudTrail.new 4 Color.BLUE), distance := 800,
      iff := IFF.IFF_NEUTRAL, fresh := false } ]

/-- A `Sensors` of owner 1 holding `exampleContacts`. -/
def exampleSensors : Sensors :=
  { m_owner := 1, m_radarContacts := exampleContacts, m_staticContacts := [] }

/-- A list of two contacts whose bodies are not ships in `exampleWorld`. -/
def exampleNonShips : List RadarContact :=
  [ { body := some 12, trail := some (HudTrail.new 12 Color.GRAY), distance := 30,
      iff := IFF.IFF_UNKNOWN, fresh := false },
    { body := some 15, trail := some (HudTrail.new 15 Color.GRAY), distance := 10,
      iff := IFF.IFF_UNKNOWN, fresh := false } ]

/-- A dynamic contact as `Update` leaves it: not fresh, with a trail of the colour of its
class that received the given calls. -/
def exampleContact (b : Body) (d : Nat) (i : IFF) (calls : List TrailCall) : RadarContact :=
  { body := some b, trail := some { body := b, color := IFFColor i, calls := calls },
    distance := d, iff := i, fresh := false }

/-- The state of the player's `Sensors` after `Update` in `exampleWorld`, `ChooseTarget`, and
`Update` in `exampleWorld2`: the contact of body 3 stands before the contact of body 2,
both at distance 200. -/
def tieState : Sensors :=
  { m_owner := 1
    m_radarContacts :=
      [ exampleContact 3 200 IFF.IFF_ALLY [TrailCall.Update 5, TrailCall.Update 6],
        exampleContact 2 200 IFF.IFF_HOSTILE [TrailCall.Update 5, TrailCall.Update 6],
        exampleContact 4 800 IFF.IFF_NEUTRAL [TrailCall.Update 5, TrailCall.Update 6] ]
    m_staticContacts := [RadarContact.ofBody (some 12)] }

/-- A world for the insertion scenario: the player 1 at the origin, one flying ship 7 at
distance 1000 with the relations value 50 in the query result, and a body list with the
planet 20, the cargo body 22 and the space station 21. -/
def scenarioWorld : World :=
  { player := 1
    playerFrame := 0
    IsType := fun b t => decide (t = ObjectType.SHIP) && decide (b < 10)
    GetType := fun b =>
      if b < 10 then ObjectType.SHIP
      else if b = 20 then ObjectType.PLANET
      else if b = 21 then ObjectType.SPACESTATION
      else ObjectType.CARGOBODY
    IsDead := fun _ => false
    shipFlightState := fun b =>
      if b = 7 then some FlightState.FLYING
      else if b < 10 then some FlightState.DOCKED
      else none
    GetRelations := fun _ _ => 50
    relPosLength := fun _ _ => 1000
    GetBodiesMaybeNear := fun _ _ => [7]
    GetBodies := [1, 20, 7, 22, 21] }

/-- A world for the examples in which ship 2 has docked: as `exampleWorld2`, but ship 2 is
docked and every ship stands at 300. -/
def exampleWorld4 : World :=
  { exampleWorld2 with
    shipFlightState := fun b =>
      if b = 2 then some FlightState.DOCKED
      else if b < 10 then some FlightState.FLYING
      else none
    relPosLength := fun _ _ => 300 }

/-- A world for the examples in which ship 2 has left and the ships 5 and 6 have come: as
`exampleWorld2`, but the query returns 5, 4, 6, 5 and 3. -/
def exampleWorld5 : World :=
  { exampleWorld2 with GetBodiesMaybeNear := fun _ _ => [5, 4, 6, 5, 3] }

/-! ## The sort and the scan of `ChooseTarget` -/

theorem sortedInsert_perm {α : Type} (comp : α → α → Bool) (x : α) :
    ∀ l : List α, (sortedInsert comp x l).Perm (x :: l)
  | [] => List.Perm.refl _
  | y :: ys => by
    unfold sortedInsert
    split
    · exact ((sortedInsert_perm comp x ys).cons y).trans (List.Perm.swap x y ys)
    · exact List.Perm.refl _

theorem listSort_perm {α : Type} (comp : α → α → Bool) :
    ∀ l : List α, (listSort comp l).Perm l
  | [] => List.Perm.refl _
  | x :: xs => by
    unfold listSort
    exact (sortedInsert_perm comp x _).trans ((listSort_perm comp xs).cons x)

theorem sortedInsert_filter {α : Type} (comp : α → α → Bool) (p : α → Bool) (x : α)
    (h : ∀ y, comp y x = true → p x = true → p y = false) :
    ∀ l : List α, (sortedInsert comp x l).filter p = (x :: l).filter p
  | [] => rfl
  | y :: ys => by
    unfold sortedInsert
    split
    · rename_i hc
      rw [List.filter_cons, sortedInsert_filter comp p x h ys]
      cases hx : p x
      · simp [List.filter_cons, hx]
      · simp [List.filter_cons, hx, h y hc hx]
    · rfl

theorem listSort_filter_distance (d : Nat) :
    ∀ l : List RadarContact,
      (listSort ContactDistanceSort l).filter (fun c => decide (c.distance = d))
        = l.filter (fun c => decide (c.distance = d))
  | [] => rfl
  | x :: xs => by
    unfold listSort
    rw [sortedInsert_filter, List.filter_cons, List.filter_cons, listSort_filter_distance d xs]
    intro y hy hx
    simp only [ContactDistanceSort, decide_eq_true_eq] at hy hx
    simp only [decide_eq_false_iff_not]
    omega

theorem sortedInsert_pairwise (x : RadarContact) :
    ∀ l : List RadarContact, l.Pairwise (fun a b => a.distance ≤ b.distance) →
      (sortedInsert ContactDistanceSort x l).Pairwise (fun a b => a.distance ≤ b.distance)
  | [], _ => by simp [sortedInsert]
  | y :: ys, h => by
    unfold sortedInsert
    rw [List.pairwise_cons] at h
    split
    · rename_i hc
      simp only [ContactDistanceSort, decide_eq_true_eq] at hc
      rw [List.pairwise_cons]
      refine ⟨?_, sortedInsert_pairwise x ys h.2⟩
      intro a ha
      rcases List.mem_cons.1 ((sortedInsert_perm _ x ys).mem_iff.1 ha) with rfl | ha
      · exact Nat.le_of_lt hc
      · exact h.1 a ha
    · rename_i hc
      simp only [ContactDistanceSort, decide_eq_true_eq, Nat.not_lt] at hc
      rw [List.pairwise_cons]
      refine ⟨?_, List.pairwise_cons.2 h⟩
      intro a ha
      rcases List.mem_cons.1 ha with rfl | ha
      · exact hc
      · exact Nat.le_trans hc (h.1 a ha)

theorem listSort_pairwise :
    ∀ l : List RadarContact,
      (listSort ContactDistanceSort l).Pairwise (fun a b => a.distance ≤ b.distance)
  | [] => List.Pairwise.nil
  | x :: xs => by
    unfold listSort
    exact sortedInsert_pairwise x _ (listSort_pairwise xs)

/-- The scan ends without a match exactly on a list without ship contacts, when no body
is null. -/
theorem scanTarget_none_iff (w : World) :
    ∀ l : List RadarContact, (∀ c ∈ l, c.body ≠ none) →
      (scanTarget w l = some none ↔ ∀ c ∈ l, isShipContact w c = false)
  | [], _ => by simp [scanTarget]
  | c :: cs, h => by
    have hc := h c (List.mem_cons_self _ _)
    have ih := scanTarget_none_iff w cs (fun c' hc' => h c' (List.mem_cons_of_mem _ hc'))
    cases hb : c.body with
    | none => exact absurd hb hc
    | some b =>
      cases ht : w.IsType b ObjectType.SHIP <;>
        simp [scanTarget, hb, ht, isShipContact, ih]

/-- A successful scan returns the body of the first ship contact of the list. -/
theorem scanTarget_some (w : World) (b : Body) :
    ∀ l : List RadarContact, scanTarget w l = some (some b) →
      ∃ pre c post, l = pre ++ c :: post ∧ c.body = some b ∧ isShipContact w c = true ∧
        ∀ c' ∈ pre, isShipContact w c' = false
  | [], h => by simp [scanTarget] at h
  | c :: cs, h => by
    cases hb : c.body with
    | none => simp [scanTarget, hb] at h
    | some b' =>
      cases ht : w.IsType b' ObjectType.SHIP
      · simp only [scanTarget, hb, ht] at h
        obtain ⟨pre, c', post, hl, hcb, hs, hpre⟩ := scanTarget_some w b cs (by simpa using h)
        refine ⟨c :: pre, c', post, by simp [hl], hcb, hs, ?_⟩
        intro x hx
        rcases List.mem_cons.1 hx with rfl | hx
        · simp [isShipContact, hb, ht]
        · exact hpre x hx
      · simp only [scanTarget, hb, ht] at h
        refine ⟨[], c, cs, rfl, ?_, ?_, ?_⟩
        · simpa [hb] using h
        · simp [isShipContact, hb, ht]
        · simp

/-- The scan returns a result on every list without a null body. -/
theorem scanTarget_isSome (w : World) :
    ∀ l : List RadarContact, (∀ c ∈ l, c.body ≠ none) → ∃ r, scanTarget w l = some r
  | [], _ => ⟨none, rfl⟩
  | c :: cs, h => by
    have hc := h c (List.mem_cons_self _ _)
    cases hb : c.body with
    | none => exact absurd hb hc
    | some b =>
      cases ht : w.IsType b ObjectType.SHIP
      · simpa [scanTarget, hb, ht] using
          scanTarget_isSome w cs (fun c' hc' => h c' (List.mem_cons_of_mem _ hc'))
      · exact ⟨some b, by simp [scanTarget, hb, ht]⟩

theorem listSort_body_ne_none {cs : List RadarContact} (h : ∀ c ∈ cs, c.body ≠ none) :
    ∀ c ∈ listSort ContactDistanceSort cs, c.body ≠ none :=
  fun c hc => h c ((listSort_perm ContactDistanceSort cs).mem_iff.1 hc)

theorem chooseTarget_of_scan_none (s : Sensors) (w : World) (crit : TargetingCriteria)
    (tgt : Option Body)
    (h : scanTarget w (listSort ContactDistanceSort s.m_radarContacts) = some none) :
    s.ChooseTarget w crit tgt =
      some ({ s with m_radarContacts := listSort ContactDistanceSort s.m_radarContacts },
        tgt, false) := by
  unfold Sensors.ChooseTarget
  simp only [h]

theorem chooseTarget_of_scan_some (s : Sensors) (w : World) (crit : TargetingCriteria)
    (tgt : Option Body) (b : Body)
    (h : scanTarget w (listSort ContactDistanceSort s.m_radarContacts) = some (some b)) :
    s.ChooseTarget w crit tgt =
      some ({ s with m_radarContacts := listSort ContactDistanceSort s.m_radarContacts },
        some b, true) := by
  unfold Sensors.ChooseTarget
  simp only [h]

/-- A successful scan of the sorted list returns the body of a ship contact that no ship
contact of the list undercuts in distance. -/
theorem scan_sorted_nearest (w : World) (cs : List RadarContact) (b : Body)
    (h : scanTarget w (listSort ContactDistanceSort cs) = some (some b)) :
    ∃ c ∈ cs, c.body = some b ∧ isShipContact w c = true ∧
      ∀ c' ∈ cs, isShipContact w c' = true → c.distance ≤ c'.distance := by
  obtain ⟨pre, c, post, hl, hcb, hship, hpre⟩ := scanTarget_some w b _ h
  have hperm := listSort_perm ContactDistanceSort cs
  have hsorted := listSort_pairwise cs
  rw [hl] at hperm hsorted
  refine ⟨c, hperm.mem_iff.1 (by simp), hcb, hship, ?_⟩
  intro c' hc' hs'
  have hmem := hperm.mem_iff.2 hc'
  simp only [List.mem_append, List.mem_cons] at hmem
  rcases hmem with hm | rfl | hm
  · rw [hpre c' hm] at hs'
    exact absurd hs' (by simp)
  · exact Nat.le_refl _
  · exact (List.pairwise_cons.1 (List.pairwise_append.1 hsorted).2.1).1 c' hm

/-- A successful scan of the sorted list returns the body of the ship contact that stands
first, in the order of the unsorted list, among the ship contacts of smallest distance. -/
theorem scan_sorted_first (w : World) (cs : List RadarContact) (b : Body)
    (h : scanTarget w (listSort ContactDistanceSort cs) = some (some b)) :
    ∃ pre c post, cs = pre ++ c :: post ∧ c.body = some b ∧ isShipContact w c = true ∧
      (∀ c' ∈ pre, isShipContact w c' = true → c.distance < c'.distance) ∧
      (∀ c' ∈ post, isShipContact w c' = true → c.distance ≤ c'.distance) := by
  obtain ⟨p, c, q, hl, hcb, hship, hp⟩ := scanTarget_some w b _ h
  have hperm := listSort_perm ContactDistanceSort cs
  have hsorted := listSort_pairwise cs
  have hstable := listSort_filter_distance c.distance cs
  rw [hl] at hperm hsorted hstable
  have hmin : ∀ c' ∈ cs, isShipContact w c' = true → c.distance ≤ c'.distance := by
    intro c' hc' hs'
    have hmem := hperm.mem_iff.2 hc'
    simp only [List.mem_append, List.mem_cons] at hmem
    rcases hmem with hm | rfl | hm
    · rw [hp c' hm] at hs'
      exact absurd hs' (by simp)
    · exact Nat.le_refl _
    · exact (List.pairwise_cons.1 (List.pairwise_append.1 hsorted).2.1).1 c' hm
  rw [List.filter_append, List.filter_cons] at hstable
  simp only [decide_True, if_true] at hstable
  obtain ⟨l1, l2, hcs, hl1, hl2⟩ := List.filter_eq_append_iff.1 hstable.symm
  obtain ⟨m1, m2, hl2', hm1, _, _⟩ := List.filter_eq_cons_iff.1 hl2
  refine ⟨l1 ++ m1, c, m2, by simp [hcs, hl2'], hcb, hship, ?_, ?_⟩
  · intro c' hc' hs'
    have hle : c.distance ≤ c'.distance :=
      hmin c' (by rw [hcs, hl2']; simp only [List.mem_append, List.mem_cons] at hc' ⊢; tauto) hs'
    have hne : c'.distance ≠ c.distance := by
      intro heq
      rcases List.mem_append.1 hc' with h1 | h1
      · have : c' ∈ List.filter (fun c0 => decide (c0.distance = c.distance)) p := by
          rw [← hl1]
          exact List.mem_filter.2 ⟨h1, by simp [heq]⟩
        have hns := hp c' (List.mem_filter.1 this).1
        rw [hns] at hs'
        exact absurd hs' (by simp)
      · exact hm1 c' h1 (by simp [heq])
    omega
  · intro c' hc' hs'
    exact hmin c' (by rw [hcs, hl2']; simp [hc']) hs'

/-! ## The first loop of `Update` -/

theorem refreshFound_none (b : Body) :
    ∀ cs : List RadarContact, refreshFound b cs = none → ∀ c ∈ cs, c.body ≠ some b
  | [], _ => by simp
  | c :: cs, h => by
    unfold refreshFound at h
    split at h
    · simp at h
    · rename_i hc
      have ih := refreshFound_none b cs (by simpa using h)
      intro x hx
      rcases List.mem_cons.1 hx with rfl | hx
      · exact hc
      · exact ih x hx

theorem refreshFound_some (b : Body) :
    ∀ cs cs' : List RadarContact, refreshFound b cs = some cs' →
      ∃ pre c post, cs = pre ++ c :: post ∧ c.body = some b ∧
        (∀ x ∈ pre, x.body ≠ some b) ∧ cs' = pre ++ { c with fresh := true } :: post
  | [], _, h => by simp [refreshFound] at h
  | c :: cs, cs', h => by
    unfold refreshFound at h
    split at h
    · rename_i hc
      refine ⟨[], c, cs, rfl, hc, by simp, ?_⟩
      simpa using h.symm
    · rename_i hc
      cases hr : refreshFound b cs with
      | none => simp [hr] at h
      | some r =>
        obtain ⟨pre, x, post, hcs, hx, hpre, hr'⟩ := refreshFound_some b cs r hr
        refine ⟨c :: pre, x, post, by simp [hcs], hx, ?_, ?_⟩
        · intro y hy
          rcases List.mem_cons.1 hy with rfl | hy
          · exact hc
          · exact hpre y hy
        · simp [hr] at h
          simp [← h, hr']

theorem newContact_body (w : World) (o b : Body) : (newContact w o b).body = some b := rfl

theorem newContact_fresh (w : World) (o b : Body) : (newContact w o b).fresh = true := rfl

theorem newContact_trailOk (w : World) (o b : Body) : TrailOk (newContact w o b) :=
  ⟨_, rfl, rfl⟩

theorem MarkInv.congr {P Q : Body → Prop} {cs : List RadarContact} (h : MarkInv P cs)
    (hPQ : ∀ b, P b ↔ Q b) : MarkInv Q cs := by
  have : P = Q := funext fun b => propext (hPQ b)
  exact this ▸ h

theorem observed_iff (w : World) (o b : Body) :
    observed w o b = true ↔
      w.IsType b ObjectType.SHIP = true ∧ w.IsDead b = false ∧ b ≠ o := by
  unfold observed
  cases w.IsType b ObjectType.SHIP <;> cases w.IsDead b <;> by_cases h : b = o <;> simp [h]

theorem markBody_skip (w : World) (o : Body) (cs : List RadarContact) (b : Body)
    (h : observed w o b = false) : markBody w o cs b = cs := by
  unfold markBody
  unfold observed at h
  by_cases h1 : (decide (b = o) || !w.IsType b ObjectType.SHIP) = true
  · have : (b = o || !w.IsType b ObjectType.SHIP) = true := by simpa using h1
    simp [this]
  · have h1' : (decide (b = o) || !w.IsType b ObjectType.SHIP) = false := by simpa using h1
    have hd : w.IsDead b = true := by simpa [h1'] using h
    simp [hd]

theorem markBody_append (w : World) (o : Body) (cs : List RadarContact) (b : Body)
    (h : observed w o b = true) (hr : refreshFound b cs = none) :
    markBody w o cs b = cs ++ [newContact w o b] := by
  unfold markBody
  unfold observed at h
  simp only [Bool.and_eq_true, Bool.not_eq_true', Bool.or_eq_false_iff, decide_eq_false_iff_not] at h
  obtain ⟨⟨h1, h2⟩, h3⟩ := h
  simp [h1, h2, h3, hr]

theorem markBody_refresh (w : World) (o : Body) (cs cs' : List RadarContact) (b : Body)
    (h : observed w o b = true) (hr : refreshFound b cs = some cs') :
    markBody w o cs b = cs' := by
  unfold markBody
  unfold observed at h
  simp only [Bool.and_eq_true, Bool.not_eq_true', Bool.or_eq_false_iff, decide_eq_false_iff_not] at h
  obtain ⟨⟨h1, h2⟩, h3⟩ := h
  simp [h1, h2, h3, hr]

theorem markBody_inv (w : World) (o : Body) (P : Body → Prop) (cs : List RadarContact)
    (b : Body) (h : MarkInv P cs) :
    MarkInv (fun x => P x ∨ (x = b ∧ observed w o b = true)) (markBody w o cs b) := by
  cases hob : observed w o b with
  | false =>
    rw [markBody_skip w o cs b hob]
    exact h.congr (fun x => by simp)
  | true =>
    obtain ⟨hnd, hall, hP⟩ := h
    cases hr : refreshFound b cs with
    | none =>
      rw [markBody_append w o cs b hob hr]
      have hno := refreshFound_none b cs hr
      refine ⟨?_, ?_, ?_⟩
      · simp only [List.map_append, List.map_cons, List.map_nil, newContact_body]
        rw [List.nodup_append]
        refine ⟨hnd, List.nodup_singleton _, ?_⟩
        intro x hx hx'
        rw [List.mem_singleton] at hx'
        subst hx'
        obtain ⟨c, hc, hcb⟩ := List.mem_map.1 hx
        exact hno c hc hcb
      · intro c hc
        rcases List.mem_append.1 hc with hc | hc
        · obtain ⟨b', hb', hf, ht⟩ := hall c hc
          refine ⟨b', hb', ?_, ht⟩
          have hne : b' ≠ b := fun e => hno c hc (e ▸ hb')
          simp [hf, hne]
        · rw [List.mem_singleton] at hc
          subst hc
          exact ⟨b, rfl, by simp [newContact_fresh], newContact_trailOk w o b⟩
      · intro x hx
        rcases hx with hx | ⟨rfl, _⟩
        · obtain ⟨c, hc, hcb⟩ := hP x hx
          exact ⟨c, List.mem_append_left _ hc, hcb⟩
        · exact ⟨newContact w o x, by simp, rfl⟩
    | some cs' =>
      rw [markBody_refresh w o cs cs' b hob hr]
      obtain ⟨pre, c, post, hcs, hcb, hpre, hcs'⟩ := refreshFound_some b cs cs' hr
      subst hcs hcs'
      have hpost : ∀ x ∈ post, x.body ≠ some b := by
        intro x hx hxb
        rw [List.map_append, List.map_cons, List.nodup_append] at hnd
        have := (List.nodup_cons.1 hnd.2.1).1
        exact this (hcb ▸ hxb ▸ List.mem_map_of_mem (fun c => c.body) hx)
      refine ⟨by simpa using hnd, ?_, ?_⟩
      · intro x hx
        simp only [List.mem_append, List.mem_cons] at hx
        have key : ∀ y ∈ pre ++ c :: post, y.body ≠ some b →
            ∃ b', y.body = some b' ∧ (y.fresh = true ↔ P b' ∨ b' = b ∧ True) ∧ TrailOk y := by
          intro y hy hyb
          obtain ⟨b', hb', hf, ht⟩ := hall y hy
          refine ⟨b', hb', ?_, ht⟩
          have hne : b' ≠ b := fun e => hyb (e ▸ hb')
          simp [hf, hne]
        rcases hx with hx | rfl | hx
        · simpa using key x (by simp [hx]) (hpre x hx)
        · obtain ⟨b', hb', _, ht⟩ := hall c (by simp)
          have : b' = b := by simpa [hb'] using hcb
          subst this
          exact ⟨b', hb', by simp, ht⟩
        · simpa using key x (by simp [hx]) (hpost x hx)
      · intro x hx
        rcases hx with hx | ⟨rfl, _⟩
        · obtain ⟨y, hy, hyb⟩ := hP x hx
          simp only [List.mem_append, List.mem_cons] at hy
          rcases hy with hy | rfl | hy
          · exact ⟨y, by simp [hy], hyb⟩
          · exact ⟨{ y with fresh := true }, by simp, hyb⟩
          · exact ⟨y, by simp [hy], hyb⟩
        · exact ⟨{ c with fresh := true }, by simp, hcb⟩

theorem markNearby_inv (w : World) (o : Body) :
    ∀ (nearby : List Body) (P : Body → Prop) (cs : List RadarContact), MarkInv P cs →
      MarkInv (fun x => P x ∨ (x ∈ nearby ∧ observed w o x = true)) (markNearby w o cs nearby)
  | [], P, cs, h => by
    simpa [markNearby] using h.congr (fun x => by simp)
  | b :: bs, P, cs, h => by
    have h1 := markBody_inv w o P cs b h
    have h2 := markNearby_inv w o bs _ _ h1
    have : markNearby w o cs (b :: bs) = markNearby w o (markBody w o cs b) bs := rfl
    rw [this]
    refine h2.congr (fun x => ?_)
    simp only [List.mem_cons]
    constructor
    · rintro ((hp | ⟨rfl, ho⟩) | ⟨hx, ho⟩)
      · exact Or.inl hp
      · exact Or.inr ⟨Or.inl rfl, ho⟩
      · exact Or.inr ⟨Or.inr hx, ho⟩
    · rintro (hp | ⟨rfl | hx, ho⟩)
      · exact Or.inl (Or.inl hp)
      · exact Or.inl (Or.inr ⟨rfl, ho⟩)
      · exact Or.inr ⟨hx, ho⟩

/-! ## The second loop of `Update` -/

theorem refreshContact_body (w : World) (o : Body) (t : Nat) (c : RadarContact)
    (tr : HudTrail) : (refreshContact w o t c tr).body = c.body := by
  unfold refreshContact
  cases c.body with
  | none => rfl
  | some b => dsimp only; split <;> rfl

theorem refreshContact_iff (w : World) (o : Body) (t : Nat) (c : RadarContact)
    (tr : HudTrail) : (refreshContact w o t c tr).iff = c.iff := by
  unfold refreshContact
  cases c.body with
  | none => rfl
  | some b => dsimp only; split <;> rfl

theorem refreshContact_fresh (w : World) (o : Body) (t : Nat) (c : RadarContact)
    (tr : HudTrail) : (refreshContact w o t c tr).fresh = false := rfl

theorem refreshContact_trail (w : World) (o : Body) (t : Nat) (c : RadarContact)
    (tr : HudTrail) :
    ∃ tr', (refreshContact w o t c tr).trail = some tr' ∧ tr'.color = tr.color := by
  unfold refreshContact
  cases c.body with
  | none => exact ⟨_, rfl, rfl⟩
  | some b =>
    dsimp only
    split
    · exact ⟨_, rfl, rfl⟩
    · exact ⟨_, rfl, rfl⟩

theorem refreshed_body (w : World) (o : Body) (t : Nat) (c : RadarContact) :
    (refreshed w o t c).body = c.body := by
  unfold refreshed
  split
  · rfl
  · exact refreshContact_body w o t c _

theorem refreshed_trailOk (w : World) (o : Body) (t : Nat) (c : RadarContact)
    (h : TrailOk c) : TrailOk (refreshed w o t c) := by
  obtain ⟨tr, htr, hcol⟩ := h
  unfold refreshed
  rw [htr]
  obtain ⟨tr', h1, h2⟩ := refreshContact_trail w o t c tr
  exact ⟨tr', h1, by rw [h2, hcol, refreshContact_iff]⟩

theorem refreshed_fresh (w : World) (o : Body) (t : Nat) (c : RadarContact)
    (h : TrailOk c) : (refreshed w o t c).fresh = false := by
  obtain ⟨tr, htr, _⟩ := h
  unfold refreshed
  rw [htr]
  rfl

/-- The second loop of `Update` returns when every fresh contact has a trail: it keeps the
fresh contacts, in order, each updated by `refreshed`. -/
theorem sweep_eq (w : World) (o : Body) (t : Nat) :
    ∀ cs : List RadarContact, (∀ c ∈ cs, c.fresh = true → c.trail ≠ none) →
      sweep w o t cs = some ((cs.filter (fun c => c.fresh)).map (refreshed w o t))
  | [], _ => rfl
  | c :: cs, h => by
    have ih := sweep_eq w o t cs (fun x hx => h x (List.mem_cons_of_mem _ hx))
    unfold sweep
    cases hf : c.fresh with
    | false => simpa [hf] using ih
    | true =>
      cases htr : c.trail with
      | none => exact absurd htr (h c (List.mem_cons_self _ _) hf)
      | some tr => simp [hf, ih, refreshed, htr]

/-! ## `UpdateIFF` and `ResetTrails` -/

theorem updateIFFList_absent (w : World) (o : Body) (b : Option Body) :
    ∀ cs : List RadarContact, (∀ c ∈ cs, c.body ≠ b) → updateIFFList w o b cs = some cs
  | [], _ => rfl
  | c :: cs, h => by
    have ih := updateIFFList_absent w o b cs (fun x hx => h x (List.mem_cons_of_mem _ hx))
    have hc := h c (List.mem_cons_self _ _)
    simp [updateIFFList, updateIFFContact, hc, ih]

theorem updateIFFList_some (w : World) (o : Body) (b : Body) :
    ∀ cs : List RadarContact, (∀ c ∈ cs, c.body = some b → c.trail ≠ none) →
      updateIFFList w o (some b) cs = some (cs.map (reclassified w o b))
  | [], _ => rfl
  | c :: cs, h => by
    have ih := updateIFFList_some w o b cs (fun x hx => h x (List.mem_cons_of_mem _ hx))
    have hc := h c (List.mem_cons_self _ _)
    by_cases hb : c.body = some b
    · cases htr : c.trail with
      | none => exact absurd htr (hc hb)
      | some tr => simp [updateIFFList, updateIFFContact, hb, htr, ih, reclassified]
    · simp [updateIFFList, updateIFFContact, hb, ih, reclassified]

theorem reclassified_body (w : World) (o b : Body) (c : RadarContact) :
    (reclassified w o b c).body = c.body := by
  unfold reclassified; split <;> rfl

theorem reclassified_fresh (w : World) (o b : Body) (c : RadarContact) :
    (reclassified w o b c).fresh = c.fresh := by
  unfold reclassified; split <;> rfl

theorem reclassified_distance (w : World) (o b : Body) (c : RadarContact) :
    (reclassified w o b c).distance = c.distance := by
  unfold reclassified; split <;> rfl

theorem reclassified_trailOk (w : World) (o b : Body) (c : RadarContact) (h : TrailOk c) :
    TrailOk (reclassified w o b c) := by
  obtain ⟨tr, htr, hcol⟩ := h
  unfold reclassified
  split
  · exact ⟨tr.SetColor (IFFColor (CheckIFF w o b)), by simp [htr], rfl⟩
  · exact ⟨tr, htr, hcol⟩

theorem resetTrailsList_eq (w : World) :
    ∀ cs : List RadarContact, (∀ c ∈ cs, c.trail ≠ none) →
      resetTrailsList w cs = some (cs.map (trailReset w))
  | [], _ => rfl
  | c :: cs, h => by
    have ih := resetTrailsList_eq w cs (fun x hx => h x (List.mem_cons_of_mem _ hx))
    cases htr : c.trail with
    | none => exact absurd htr (h c (List.mem_cons_self _ _))
    | some tr => simp [resetTrailsList, htr, ih, trailReset]

theorem trailReset_trailOk (w : World) (c : RadarContact) (h : TrailOk c) :
    TrailOk (trailReset w c) := by
  obtain ⟨tr, htr, hcol⟩ := h
  exact ⟨tr.Reset w.playerFrame, by simp [trailReset, htr], hcol⟩

/-! ## The invariant of the reachable states -/

theorem inv_new (owner : Body) : Inv (Sensors.new owner) := by
  simp [Inv, Sensors.new]

theorem markInv_of_inv {s : Sensors} (h : Inv s) : MarkInv (fun _ => False) s.m_radarContacts := by
  refine ⟨h.1, ?_, fun _ hb => hb.elim⟩
  intro c hc
  obtain ⟨hf, hb, ht⟩ := h.2 c hc
  cases hcb : c.body with
  | none => exact absurd hcb hb
  | some b => exact ⟨b, rfl, by simp [hf], ht⟩

/-- On a state satisfying the invariant, `Update` run by the player's ship returns: the
dynamic list is the marked list with the stale contacts erased and the others updated. -/
theorem update_player_eq {s : Sensors} (h : Inv s) (w : World) (t : Nat)
    (hp : s.m_owner = w.player) :
    s.Update w t = some
      { s with
        m_radarContacts :=
          ((markNearby w s.m_owner s.m_radarContacts
              (w.GetBodiesMaybeNear s.m_owner 100000)).filter (fun c => c.fresh)).map
            (refreshed w s.m_owner t)
        m_staticContacts := PopulateStaticContacts w } := by
  have hm := markNearby_inv w s.m_owner (w.GetBodiesMaybeNear s.m_owner 100000) _ _
    (markInv_of_inv h)
  have hs := sweep_eq w s.m_owner t _ (fun c hc _ => by
    obtain ⟨b, _, _, tr, htr, _⟩ := hm.2.1 c hc
    simp [htr])
  unfold Sensors.Update
  simp only [hp, ne_eq, not_true_eq_false, if_false]
  rw [← hp, hs]
  rfl

theorem update_not_player (s : Sensors) (w : World) (t : Nat) (hp : s.m_owner ≠ w.player) :
    s.Update w t = some s := by
  unfold Sensors.Update
  simp [hp]

theorem inv_update {s s' : Sensors} (h : Inv s) (w : World) (t : Nat)
    (hu : s.Update w t = some s') : Inv s' := by
  by_cases hp : s.m_owner = w.player
  · rw [update_player_eq h w t hp] at hu
    have hm := markNearby_inv w s.m_owner (w.GetBodiesMaybeNear s.m_owner 100000) _ _
      (markInv_of_inv h)
    have hs' := (Option.some.inj hu).symm
    subst hs'
    refine ⟨?_, ?_⟩
    · dsimp only
      rw [List.map_map]
      have : ((fun c : RadarContact => c.body) ∘ refreshed w s.m_owner t)
          = (fun c : RadarContact => c.body) := funext fun c => refreshed_body w s.m_owner t c
      rw [this]
      exact (List.filter_sublist _).map _ |>.nodup hm.1
    · intro c hc
      dsimp only at hc
      obtain ⟨c0, hc0, rfl⟩ := List.mem_map.1 hc
      have hc0' := (List.mem_filter.1 hc0).1
      obtain ⟨b, hb, _, ht⟩ := hm.2.1 c0 hc0'
      refine ⟨refreshed_fresh _ _ _ _ ht, ?_, refreshed_trailOk _ _ _ _ ht⟩
      rw [refreshed_body, hb]
      simp
  · rw [update_not_player s w t hp] at hu
    exact (Option.some.inj hu) ▸ h

theorem inv_chooseTarget {s s' : Sensors} (h : Inv s) (w : World) (crit : TargetingCriteria)
    (tgt tgt' : Option Body) (found : Bool)
    (hc : s.ChooseTarget w crit tgt = some (s', tgt', found)) : Inv s' := by
  have hs' : s' = { s with m_radarContacts := listSort ContactDistanceSort s.m_radarContacts } := by
    unfold Sensors.ChooseTarget at hc
    dsimp only at hc
    split at hc
    · simp at hc
    · simp only [Option.some.injEq, Prod.mk.injEq] at hc
      exact hc.1.symm
    · simp only [Option.some.injEq, Prod.mk.injEq] at hc
      exact hc.1.symm
  subst hs'
  have hperm := listSort_perm ContactDistanceSort s.m_radarContacts
  refine ⟨((hperm.map _).nodup_iff).2 h.1, ?_⟩
  intro c hc
  exact h.2 c (hperm.mem_iff.1 hc)

theorem inv_map {s : Sensors} (h : Inv s) (f : RadarContact → RadarContact)
    (hbody : ∀ c, (f c).body = c.body) (hfresh : ∀ c, (f c).fresh = c.fresh)
    (htrail : ∀ c, TrailOk c → TrailOk (f c)) :
    Inv { s with m_radarContacts := s.m_radarContacts.map f } := by
  refine ⟨?_, ?_⟩
  · dsimp only
    rw [List.map_map]
    have : ((fun c : RadarContact => c.body) ∘ f) = (fun c : RadarContact => c.body) :=
      funext fun c => hbody c
    rw [this]
    exact h.1
  · intro c hc
    dsimp only at hc
    obtain ⟨c0, hc0, rfl⟩ := List.mem_map.1 hc
    obtain ⟨hf, hb, ht⟩ := h.2 c0 hc0
    exact ⟨by rw [hfresh, hf], by rw [hbody]; exact hb, htrail c0 ht⟩

/-- On a state satisfying the invariant, `UpdateIFF` on a non-null body returns the list
with every contact of that body reclassified. -/
theorem updateIFF_some_eq {s : Sensors} (h : Inv s) (w : World) (b : Body) :
    s.UpdateIFF w (some b) =
      some { s with m_radarContacts := s.m_radarContacts.map (reclassified w s.m_owner b) } := by
  unfold Sensors.UpdateIFF
  rw [updateIFFList_some]
  · rfl
  · intro c hc _
    obtain ⟨_, _, tr, htr, _⟩ := h.2 c hc
    simp [htr]

/-- On a state satisfying the invariant, `UpdateIFF` on a null pointer matches no contact. -/
theorem updateIFF_none_eq {s : Sensors} (h : Inv s) (w : World) :
    s.UpdateIFF w none = some s := by
  unfold Sensors.UpdateIFF
  rw [updateIFFList_absent]
  · rfl
  · intro c hc
    exact (h.2 c hc).2.1

theorem inv_updateIFF {s s' : Sensors} (h : Inv s) (w : World) (b : Option Body)
    (hu : s.UpdateIFF w b = some s') : Inv s' := by
  cases b with
  | none =>
    rw [updateIFF_none_eq h w] at hu
    exact (Option.some.inj hu) ▸ h
  | some b =>
    rw [updateIFF_some_eq h w b] at hu
    have := inv_map h (reclassified w s.m_owner b) (reclassified_body w _ b)
      (reclassified_fresh w _ b) (reclassified_trailOk w _ b)
    exact (Option.some.inj hu) ▸ this

/-- On a state satisfying the invariant, `ResetTrails` returns the list with every trail
reset to the player's frame. -/
theorem resetTrails_eq {s : Sensors} (h : Inv s) (w : World) :
    s.ResetTrails w = some { s with m_radarContacts := s.m_radarContacts.map (trailReset w) } := by
  unfold Sensors.ResetTrails
  rw [resetTrailsList_eq]
  · rfl
  · intro c hc
    obtain ⟨_, _, tr, htr, _⟩ := h.2 c hc
    simp [htr]

theorem inv_resetTrails {s s' : Sensors} (h : Inv s) (w : World)
    (hu : s.ResetTrails w = some s') : Inv s' := by
  rw [resetTrails_eq h w] at hu
  have := inv_map h (trailReset w) (fun _ => rfl) (fun _ => rfl) (trailReset_trailOk w)
  exact (Option.some.inj hu) ▸ this

/-- Every reachable state satisfies the invariant. -/
theorem inv_of_reachable {s : Sensors} (h : Reachable s) : Inv s := by
  induction h with
  | init owner => exact inv_new owner
  | update w t _ hu ih => exact inv_update ih w t hu
  | chooseTarget w crit tgt tgt' found _ hc ih => exact inv_chooseTarget ih w crit tgt tgt' found hc
  | updateIFF w b _ hu ih => exact inv_updateIFF ih w b hu
  | resetTrails w _ hu ih => exact inv_resetTrails ih w hu

theorem runUpdates_not_player (s : Sensors) :
    ∀ ticks : List (World × Nat), (∀ p ∈ ticks, s.m_owner ≠ p.1.player) →
      runUpdates s ticks = some s
  | [], _ => rfl
  | (w, t) :: rest, h => by
    have h1 : s.m_owner ≠ w.player := h (w, t) (List.mem_cons_self _ _)
    have ih := runUpdates_not_player s rest (fun p hp => h p (List.mem_cons_of_mem _ hp))
    simp [runUpdates, update_not_player s w t h1, ih]

/-! ## The example trace -/

theorem tieState_insertionOrder : InsertionOrder tieState [some 2, some 3, some 4] := by
  have h0 := InsertionOrder.init 1
  have h1 := InsertionOrder.update exampleWorld 5 h0 rfl
  have h2 := InsertionOrder.chooseTarget exampleWorld TargetingCriteria.TARGET_NEAREST_HOSTILE
    none (some 3) true h1 rfl
  have h3 := InsertionOrder.update exampleWorld2 6 h2 rfl
  exact h3

theorem reachable_of_insertionOrder {s : Sensors} {order : List (Option Body)}
    (h : InsertionOrder s order) : Reachable s := by
  induction h with
  | init owner => exact Reachable.init owner
  | update w t _ hu ih => exact Reachable.update w t ih hu
  | chooseTarget w crit tgt tgt' found _ hc ih =>
    exact Reachable.chooseTarget w crit tgt tgt' found ih hc
  | updateIFF w b _ hu ih => exact Reachable.updateIFF w b ih hu
  | resetTrails w _ hu ih => exact Reachable.resetTrails w ih hu

theorem tieState_reachable : Reachable tieState :=
  reachable_of_insertionOrder tieState_insertionOrder

/-! ## The first loop of `Update` on an arbitrary list -/

theorem mem_firstOccurrences (x : Body) :
    ∀ l : List Body, x ∈ firstOccurrences l ↔ x ∈ l
  | [] => by simp [firstOccurrences]
  | b :: bs => by
    have ih := mem_firstOccurrences x bs
    by_cases h : x = b
    · simp [firstOccurrences, h]
    · simp [firstOccurrences, h, ih]

theorem firstOccurrences_filter (p : Body → Bool) :
    ∀ l : List Body, firstOccurrences (l.filter p) = (firstOccurrences l).filter p
  | [] => rfl
  | b :: bs => by
    have ih := firstOccurrences_filter p bs
    cases hp : p b with
    | true =>
      simp only [List.filter_cons, hp, if_true, firstOccurrences]
      rw [ih, List.filter_filter, List.filter_filter]
      congr 1
      apply List.filter_congr
      intro x _
      exact Bool.and_comm _ _
    | false =>
      simp only [List.filter_cons, hp, firstOccurrences, Bool.false_eq_true, if_false]
      rw [ih, List.filter_filter]
      apply List.filter_congr
      intro x _
      by_cases hx : x = b
      · subst hx
        simp [hp]
      · simp [hx]

theorem nodup_firstOccurrences : ∀ l : List Body, (firstOccurrences l).Nodup
  | [] => List.nodup_nil
  | b :: bs => by
    simp only [firstOccurrences]
    rw [List.nodup_cons]
    refine ⟨by simp [List.mem_filter], (nodup_firstOccurrences bs).filter _⟩

theorem setFresh_body (c : RadarContact) : (setFresh c).body = c.body := rfl

theorem setFresh_fresh (c : RadarContact) : (setFresh c).fresh = true := rfl

theorem setFresh_setFresh (c : RadarContact) : setFresh (setFresh c) = setFresh c := rfl

theorem setFresh_of_fresh {c : RadarContact} (h : c.fresh = true) : setFresh c = c := by
  cases c
  simp only [setFresh] at *
  simp [h]

theorem MarkRel.body {c c' : RadarContact} (h : MarkRel c c') : c'.body = c.body := by
  rcases h with rfl | rfl <;> rfl

theorem MarkRel.trans {a b c : RadarContact} (h1 : MarkRel a b) (h2 : MarkRel b c) :
    MarkRel a c := by
  rcases h1 with rfl | rfl
  · exact h2
  · rcases h2 with rfl | rfl
    · exact Or.inr rfl
    · exact Or.inr rfl

theorem forall₂_markRel_refl : ∀ cs : List RadarContact, List.Forall₂ MarkRel cs cs
  | [] => List.Forall₂.nil
  | _ :: cs => List.Forall₂.cons (Or.inl rfl) (forall₂_markRel_refl cs)

theorem forall₂_markRel_trans :
    ∀ {a b c : List RadarContact}, List.Forall₂ MarkRel a b → List.Forall₂ MarkRel b c →
      List.Forall₂ MarkRel a c
  | _, _, _, List.Forall₂.nil, List.Forall₂.nil => List.Forall₂.nil
  | _, _, _, List.Forall₂.cons h1 t1, List.Forall₂.cons h2 t2 =>
    List.Forall₂.cons (h1.trans h2) (forall₂_markRel_trans t1 t2)

theorem forall₂_markRel_bodies {cs cs' : List RadarContact} (h : List.Forall₂ MarkRel cs cs') :
    cs'.map (fun c => c.body) = cs.map (fun c => c.body) := by
  induction h with
  | nil => rfl
  | cons h _ ih => simp [h.body, ih]

theorem forall₂_markRel_snoc (n : RadarContact) :
    ∀ (cs X : List RadarContact), List.Forall₂ MarkRel (cs ++ [n]) X →
      ∃ cs' n', X = cs' ++ [n'] ∧ List.Forall₂ MarkRel cs cs' ∧ MarkRel n n'
  | [], X, h => by
    obtain ⟨n', X', hn, hX', rfl⟩ := List.forall₂_cons_left_iff.1 h
    have := List.forall₂_nil_left_iff.1 hX'
    subst this
    exact ⟨[], n', rfl, List.Forall₂.nil, hn⟩
  | c :: cs, X, h => by
    obtain ⟨c', X', hc, hX', rfl⟩ := List.forall₂_cons_left_iff.1 h
    obtain ⟨cs', n', rfl, hcs, hn⟩ := forall₂_markRel_snoc n cs X' hX'
    exact ⟨c' :: cs', n', rfl, List.Forall₂.cons hc hcs, hn⟩

theorem refreshFound_rel (b : Body) (cs cs' : List RadarContact)
    (h : refreshFound b cs = some cs') : List.Forall₂ MarkRel cs cs' := by
  obtain ⟨pre, c, post, rfl, _, _, rfl⟩ := refreshFound_some b cs cs' h
  exact List.rel_append (forall₂_markRel_refl pre)
    (List.Forall₂.cons (Or.inr rfl) (forall₂_markRel_refl post))

theorem refreshFound_some_referred (b : Body) (cs cs' : List RadarContact)
    (h : refreshFound b cs = some cs') : referred cs b = true := by
  obtain ⟨pre, c, post, rfl, hc, _, _⟩ := refreshFound_some b cs cs' h
  simp [referred, hc]

theorem refreshFound_none_referred (b : Body) (cs : List RadarContact)
    (h : refreshFound b cs = none) : referred cs b = false := by
  have := refreshFound_none b cs h
  simp only [referred, decide_eq_false_iff_not, List.mem_map, not_exists, not_and]
  intro c hc hcb
  exact this c hc hcb

theorem referred_congr {cs cs' : List RadarContact}
    (h : cs'.map (fun c => c.body) = cs.map (fun c => c.body)) (b : Body) :
    referred cs' b = referred cs b := by
  simp only [referred, h]

theorem insertedList_congr (w : World) (o : Body) {cs cs' : List RadarContact}
    (h : cs'.map (fun c => c.body) = cs.map (fun c => c.body)) (nearby : List Body) :
    insertedList w o cs' nearby = insertedList w o cs nearby := by
  unfold insertedList
  congr 1
  apply List.filter_congr
  intro b _
  rw [referred_congr h]

/-- The first loop of `Update`, on any list: the records present keep their places, each
as it was or with its `fresh` flag set, and the new records follow in the order of
`insertedList`. -/
theorem markNearby_struct (w : World) (o : Body) :
    ∀ (nearby : List Body) (cs : List RadarContact),
      ∃ cs', List.Forall₂ MarkRel cs cs' ∧
        markNearby w o cs nearby = cs' ++ (insertedList w o cs nearby).map (newContact w o)
  | [], cs => ⟨cs, forall₂_markRel_refl cs, by simp [markNearby, insertedList, firstOccurrences]⟩
  | b :: bs, cs => by
    have hstep : markNearby w o cs (b :: bs) = markNearby w o (markBody w o cs b) bs := rfl
    rw [hstep]
    cases hob : observed w o b with
    | false =>
      rw [markBody_skip w o cs b hob]
      obtain ⟨cs', hrel, heq⟩ := markNearby_struct w o bs cs
      refine ⟨cs', hrel, ?_⟩
      rw [heq]
      simp [insertedList, List.filter_cons, hob]
    | true =>
      cases hr : refreshFound b cs with
      | some cs1 =>
        rw [markBody_refresh w o cs cs1 b hob hr]
        have hrel1 := refreshFound_rel b cs cs1 hr
        obtain ⟨cs', hrel, heq⟩ := markNearby_struct w o bs cs1
        refine ⟨cs', forall₂_markRel_trans hrel1 hrel, ?_⟩
        rw [heq, insertedList_congr w o (forall₂_markRel_bodies hrel1)]
        simp [insertedList, List.filter_cons, hob, refreshFound_some_referred b cs cs1 hr]
      | none =>
        rw [markBody_append w o cs b hob hr]
        obtain ⟨X, hrel, heq⟩ := markNearby_struct w o bs (cs ++ [newContact w o b])
        obtain ⟨cs', n', rfl, hcs, hn⟩ := forall₂_markRel_snoc _ cs X hrel
        have hn' : n' = newContact w o b := by
          rcases hn with h | h
          · exact h
          · exact h
        subst hn'
        refine ⟨cs', hcs, ?_⟩
        rw [heq]
        have hins : insertedList w o cs (b :: bs)
            = b :: insertedList w o (cs ++ [newContact w o b]) bs := by
          simp only [insertedList, List.filter_cons, hob, refreshFound_none_referred b cs hr,
            Bool.not_false, Bool.and_self, if_true, firstOccurrences]
          rw [← firstOccurrences_filter, List.filter_filter]
          congr 2
          apply List.filter_congr
          intro x _
          by_cases hx : x = b
          · subst hx
            simp [referred, newContact_body]
          · have hx' : ¬ b = x := fun e => hx e.symm
            simp [referred, newContact_body, hx, hx']
        rw [hins]
        simp

/-! ## The closed form of `Update` -/

theorem forall₂_markRel_mem {cs cs' : List RadarContact} (h : List.Forall₂ MarkRel cs cs') :
    ∀ c' ∈ cs', ∃ c ∈ cs, MarkRel c c' := by
  induction h with
  | nil => simp
  | cons h _ ih =>
    intro c' hc'
    rcases List.mem_cons.1 hc' with rfl | hc'
    · exact ⟨_, List.mem_cons_self _ _, h⟩
    · obtain ⟨c, hc, hr⟩ := ih c' hc'
      exact ⟨c, List.mem_cons_of_mem _ hc, hr⟩

theorem MarkRel.trail {c c' : RadarContact} (h : MarkRel c c') : c'.trail = c.trail := by
  rcases h with rfl | rfl <;> rfl

/-- The contacts that are fresh after the first loop are contacts of the list before it, in
their order, with the flag set. -/
theorem forall₂_markRel_kept {cs cs' : List RadarContact} (h : List.Forall₂ MarkRel cs cs') :
    ∃ kept : List RadarContact, kept.Sublist cs ∧ cs'.filter (fun c => c.fresh) = kept.map setFresh := by
  induction h with
  | nil => exact ⟨[], List.Sublist.slnil, rfl⟩
  | @cons c c' l l' h _ ih =>
    obtain ⟨kept, hsub, heq⟩ := ih
    cases hf : c'.fresh with
    | false =>
      exact ⟨kept, hsub.cons c, by simp [List.filter_cons, hf, heq]⟩
    | true =>
      refine ⟨c :: kept, hsub.cons₂ c, ?_⟩
      have hc' : c' = setFresh c := by
        rcases h with rfl | rfl
        · exact (setFresh_of_fresh hf).symm
        · rfl
      subst hc'
      simp [List.filter_cons, setFresh_fresh, heq]

/-- When no contact was fresh before the first loop and afterwards exactly the contacts
with `q` of their body are, the loop has set the flag of exactly those. -/
theorem forall₂_markRel_eq_map (q : RadarContact → Bool)
    (hq : ∀ c, q (setFresh c) = q c) {cs cs' : List RadarContact}
    (h : List.Forall₂ MarkRel cs cs') (hl : ∀ c ∈ cs, c.fresh = false)
    (hr : ∀ c' ∈ cs', c'.fresh = q c') :
    cs' = cs.map (fun c => if q c then setFresh c else c) := by
  induction h with
  | nil => rfl
  | @cons c c' l l' h _ ih =>
    have ih' := ih (fun x hx => hl x (List.mem_cons_of_mem _ hx))
      (fun x hx => hr x (List.mem_cons_of_mem _ hx))
    have hc := hl c (List.mem_cons_self _ _)
    have hc' := hr c' (List.mem_cons_self _ _)
    rw [List.map_cons, ← ih']
    congr 1
    rcases h with rfl | rfl
    · rw [hc] at hc'
      simp [← hc']
    · rw [setFresh_fresh, hq] at hc'
      simp [← hc']

theorem markNearby_trail (w : World) (o : Body) (cs : List RadarContact) (nearby : List Body)
    (htrail : ∀ c ∈ cs, c.trail ≠ none) :
    ∀ c ∈ markNearby w o cs nearby, c.trail ≠ none := by
  obtain ⟨cs', hrel, heq⟩ := markNearby_struct w o nearby cs
  intro c hc
  rw [heq] at hc
  rcases List.mem_append.1 hc with hc | hc
  · obtain ⟨c0, hc0, hr⟩ := forall₂_markRel_mem hrel c hc
    rw [hr.trail]
    exact htrail c0 hc0
  · obtain ⟨b, _, rfl⟩ := List.mem_map.1 hc
    simp [newContact]

/-- On a list whose contacts all have a trail, `Update` run by the player's ship returns: the
contacts fresh after the first loop keep their order and are updated, the inserted ones
follow in the order of `insertedList`. -/
theorem update_player_struct (s : Sensors) (w : World) (t : Nat)
    (htrail : ∀ c ∈ s.m_radarContacts, c.trail ≠ none) (hp : s.m_owner = w.player) :
    ∃ cs', List.Forall₂ MarkRel s.m_radarContacts cs' ∧
      s.Update w t = some
        { s with
          m_radarContacts :=
            (cs'.filter (fun c => c.fresh)).map (refreshed w s.m_owner t) ++
              (insertedList w s.m_owner s.m_radarContacts
                (w.GetBodiesMaybeNear s.m_owner 100000)).map
                (fun b => refreshed w s.m_owner t (newContact w s.m_owner b))
          m_staticContacts := PopulateStaticContacts w } := by
  obtain ⟨cs', hrel, heq⟩ :=
    markNearby_struct w s.m_owner (w.GetBodiesMaybeNear s.m_owner 100000) s.m_radarContacts
  refine ⟨cs', hrel, ?_⟩
  have hs := sweep_eq w s.m_owner t
    (markNearby w s.m_owner s.m_radarContacts (w.GetBodiesMaybeNear s.m_owner 100000))
    (fun c hc _ => markNearby_trail w s.m_owner s.m_radarContacts _ htrail c hc)
  unfold Sensors.Update
  simp only [hp, ne_eq, not_true_eq_false, if_false]
  rw [← hp, hs, heq]
  simp [List.filter_append, List.filter_map, List.map_map, Function.comp_def, newContact_fresh]

theorem reobserved_setFresh (w : World) (o : Body) (nearby : List Body) (c : RadarContact) :
    reobserved w o nearby (setFresh c) = reobserved w o nearby c := rfl

/-- On a state satisfying the invariant, `Update` run by the player's ship returns: the
contacts whose body the query returns again keep their order and are updated, the
inserted ones follow in the order of `insertedList`. -/
theorem update_player_closed {s : Sensors} (h : Inv s) (w : World) (t : Nat)
    (hp : s.m_owner = w.player) :
    s.Update w t = some
      { s with
        m_radarContacts :=
          (s.m_radarContacts.filter
              (reobserved w s.m_owner (w.GetBodiesMaybeNear s.m_owner 100000))).map
            (fun c => refreshed w s.m_owner t (setFresh c)) ++
            (insertedList w s.m_owner s.m_radarContacts
              (w.GetBodiesMaybeNear s.m_owner 100000)).map
              (fun b => refreshed w s.m_owner t (newContact w s.m_owner b))
        m_staticContacts := PopulateStaticContacts w } := by
  rw [update_player_eq h w t hp]
  have hm := markNearby_inv w s.m_owner (w.GetBodiesMaybeNear s.m_owner 100000) _ _
    (markInv_of_inv h)
  obtain ⟨cs'', hrel', heq'⟩ :=
    markNearby_struct w s.m_owner (w.GetBodiesMaybeNear s.m_owner 100000) s.m_radarContacts
  have hmap := forall₂_markRel_eq_map
    (reobserved w s.m_owner (w.GetBodiesMaybeNear s.m_owner 100000))
    (reobserved_setFresh w s.m_owner _) hrel' (fun c hc => (h.2 c hc).1)
    (by
      intro c' hc'
      obtain ⟨b, hb, hf, _⟩ := hm.2.1 c' (by rw [heq']; exact List.mem_append_left _ hc')
      simp only [false_or] at hf
      unfold reobserved
      rw [hb]
      cases hfr : c'.fresh with
      | true =>
        have := hf.1 hfr
        simp [this.1, this.2]
      | false =>
        have hn : ¬ (b ∈ w.GetBodiesMaybeNear s.m_owner 100000 ∧ observed w s.m_owner b = true) :=
          fun hx => by simpa [hfr] using hf.2 hx
        by_cases hmem : b ∈ w.GetBodiesMaybeNear s.m_owner 100000
        · have : observed w s.m_owner b = false := by
            cases hob : observed w s.m_owner b
            · rfl
            · exact absurd ⟨hmem, hob⟩ hn
          simp [this]
        · simp [hmem])
  rw [heq', hmap]
  have hfilter : ∀ l : List RadarContact, (∀ c ∈ l, c.fresh = false) →
      (l.map (fun c =>
          if reobserved w s.m_owner (w.GetBodiesMaybeNear s.m_owner 100000) c = true
          then setFresh c else c)).filter (fun c => c.fresh)
        = (l.filter (reobserved w s.m_owner (w.GetBodiesMaybeNear s.m_owner 100000))).map
            setFresh := by
    intro l
    induction l with
    | nil => intro _; rfl
    | cons c l ih =>
      intro hl
      have hc := hl c (List.mem_cons_self _ _)
      have ih' := ih (fun x hx => hl x (List.mem_cons_of_mem _ hx))
      cases hq : reobserved w s.m_owner (w.GetBodiesMaybeNear s.m_owner 100000) c with
      | true => simp [List.filter_cons, hq, setFresh_fresh, ih']
      | false => simp [List.filter_cons, hq, hc, ih']
  simp only [List.filter_append, hfilter _ (fun c hc => (h.2 c hc).1), List.map_append,
    List.map_map]
  congr 3
  simp [List.filter_map, Function.comp_def, newContact_fresh]

/-! ## Lemmas for the claims about `Update` -/

theorem foldl_append_filter (f : List RadarContact → Body → List RadarContact)
    (p : Body → Bool) (g : Body → RadarContact)
    (hf : ∀ acc b, f acc b = if p b = true then acc ++ [g b] else acc) :
    ∀ (bodies : List Body) (acc : List RadarContact),
      bodies.foldl f acc = acc ++ (bodies.filter p).map g
  | [], acc => by simp
  | b :: bs, acc => by
    rw [List.foldl_cons, foldl_append_filter f p g hf bs, hf]
    cases hp : p b <;> simp [List.filter_cons, hp]

/-- The list `PopulateStaticContacts` leaves: one static record per landmark body, in the
order of the world's body list. -/
theorem populateStatic_eq (w : World) :
    PopulateStaticContacts w = (w.GetBodies.filter (isLandmark w)).map staticRecord := by
  unfold PopulateStaticContacts
  rw [foldl_append_filter _ (isLandmark w) staticRecord]
  · simp
  · intro acc b
    cases hty : w.GetType b <;>
      simp [isLandmark, hty, staticRecord, RadarContact.ofBody]

theorem refreshed_flying (w : World) (o : Body) (t : Nat) (c : RadarContact) (b : Body)
    (tr : HudTrail) (hb : c.body = some b) (htr : c.trail = some tr)
    (hfly : w.shipFlightState b = some FlightState.FLYING) :
    refreshed w o t c =
      { c with distance := w.relPosLength o b, trail := some (tr.Update t), fresh := false } := by
  unfold refreshed
  rw [htr]
  unfold refreshContact
  rw [hb]
  simp [hfly]

theorem refreshed_not_flying (w : World) (o : Body) (t : Nat) (c : RadarContact) (b : Body)
    (tr : HudTrail) (hb : c.body = some b) (htr : c.trail = some tr)
    (hfly : w.shipFlightState b ≠ some FlightState.FLYING) :
    refreshed w o t c = { c with trail := some (tr.Reset noFrameId), fresh := false } := by
  unfold refreshed
  rw [htr]
  unfold refreshContact
  rw [hb]
  simp [hfly]

theorem refreshed_iff (w : World) (o : Body) (t : Nat) (c : RadarContact) :
    (refreshed w o t c).iff = c.iff := by
  unfold refreshed
  split
  · rfl
  · exact refreshContact_iff w o t c _

theorem refreshed_trail_ne_none (w : World) (o : Body) (t : Nat) (c : RadarContact)
    (h : c.trail ≠ none) : (refreshed w o t c).trail ≠ none := by
  cases htr : c.trail with
  | none => exact absurd htr h
  | some tr =>
    unfold refreshed
    rw [htr]
    obtain ⟨tr', h1, _⟩ := refreshContact_trail w o t c tr
    simp [h1]

theorem refreshed_trail_color (w : World) (o : Body) (t : Nat) (c : RadarContact) :
    (refreshed w o t c).trail.map (fun tr => tr.color) = c.trail.map (fun tr => tr.color) := by
  cases htr : c.trail with
  | none => simp [refreshed, htr]
  | some tr =>
    unfold refreshed
    rw [htr]
    obtain ⟨tr', h1, h2⟩ := refreshContact_trail w o t c tr
    simp [h1, h2]

theorem sweep_fresh (w : World) (o : Body) (t : Nat) :
    ∀ (cs l : List RadarContact), sweep w o t cs = some l → ∀ c ∈ l, c.fresh = false
  | [], l, h => by
    simp only [sweep, Option.some.injEq] at h
    subst h
    simp
  | c :: cs, l, h => by
    unfold sweep at h
    split at h
    · exact sweep_fresh w o t cs l h
    · split at h
      · simp at h
      · rename_i tr _
        cases hs : sweep w o t cs with
        | none => simp [hs] at h
        | some l' =>
          simp only [hs, Option.map_some', Option.some.injEq] at h
          subst h
          intro x hx
          rcases List.mem_cons.1 hx with rfl | hx
          · rfl
          · exact sweep_fresh w o t cs l' hs x hx

theorem updateIFFList_fresh (w : World) (o : Body) (b : Option Body) :
    ∀ (cs l : List RadarContact), updateIFFList w o b cs = some l →
      l.map (fun c => c.fresh) = cs.map (fun c => c.fresh)
  | [], l, h => by
    simp only [updateIFFList, Option.some.injEq] at h
    subst h
    rfl
  | c :: cs, l, h => by
    unfold updateIFFList at h
    cases hc : updateIFFContact w o b c with
    | none => simp [hc] at h
    | some c' =>
      cases hs : updateIFFList w o b cs with
      | none => simp [hc, hs] at h
      | some l' =>
        simp only [hc, hs, Option.map_some', Option.some.injEq] at h
        subst h
        have ih := updateIFFList_fresh w o b cs l' hs
        have hf : c'.fresh = c.fresh := by
          unfold updateIFFContact at hc
          split at hc
          · split at hc
            · simp at hc
            · dsimp only at hc
              split at hc
              · simp at hc
              · simp only [Option.some.injEq] at hc
                subst hc
                rfl
          · simp only [Option.some.injEq] at hc
            subst hc
            rfl
        simp [hf, ih]

theorem resetTrailsList_fresh (w : World) :
    ∀ (cs l : List RadarContact), resetTrailsList w cs = some l →
      l.map (fun c => c.fresh) = cs.map (fun c => c.fresh)
  | [], l, h => by
    simp only [resetTrailsList, Option.some.injEq] at h
    subst h
    rfl
  | c :: cs, l, h => by
    unfold resetTrailsList at h
    split at h
    · simp at h
    · cases hs : resetTrailsList w cs with
      | none => simp [hs] at h
      | some l' =>
        simp only [hs, Option.map_some', Option.some.injEq] at h
        subst h
        simp [resetTrailsList_fresh w cs l' hs]

theorem chooseTarget_state {s s' : Sensors} {w : World} {crit : TargetingCriteria}
    {tgt tgt' : Option Body} {found : Bool}
    (hc : s.ChooseTarget w crit tgt = some (s', tgt', found)) :
    s' = { s with m_radarContacts := listSort ContactDistanceSort s.m_radarContacts } := by
  unfold Sensors.ChooseTarget at hc
  dsimp only at hc
  split at hc
  · simp at hc
  · simp only [Option.some.injEq, Prod.mk.injEq] at hc
    exact hc.1.symm
  · simp only [Option.some.injEq, Prod.mk.injEq] at hc
    exact hc.1.symm

theorem mem_insertedList (w : World) (o : Body) (cs : List RadarContact) (nearby : List Body)
    (b : Body) :
    b ∈ insertedList w o cs nearby ↔
      b ∈ nearby ∧ observed w o b = true ∧ ∀ c ∈ cs, c.body ≠ some b := by
  unfold insertedList
  rw [mem_firstOccurrences, List.mem_filter]
  simp only [referred, Bool.and_eq_true, Bool.not_eq_true', decide_eq_false_iff_not,
    List.mem_map, not_exists, not_and]

/-- In a list whose bodies are pairwise distinct, the contacts of the body of a member are
that member alone. -/
theorem filter_body_eq_singleton :
    ∀ (l : List RadarContact), (l.map (fun c => c.body)).Nodup → ∀ c ∈ l,
      l.filter (fun x => decide (x.body = c.body)) = [c]
  | [], _, c, hc => by simp at hc
  | x :: l, hnd, c, hc => by
    rw [List.map_cons, List.nodup_cons] at hnd
    rcases List.mem_cons.1 hc with rfl | hc
    · have : l.filter (fun x => decide (x.body = c.body)) = [] := by
        rw [List.filter_eq_nil_iff]
        intro y hy
        simp only [decide_eq_true_eq]
        intro hyb
        exact hnd.1 (hyb ▸ List.mem_map_of_mem (fun c => c.body) hy)
      simp [List.filter_cons, this]
    · have hx : x.body ≠ c.body := by
        intro hxb
        exact hnd.1 (hxb ▸ List.mem_map_of_mem (fun c => c.body) hc)
      simp [List.filter_cons, hx, filter_body_eq_singleton l hnd.2 c hc]

theorem eq_of_body_eq {l : List RadarContact} (hnd : (l.map (fun c => c.body)).Nodup)
    {c c' : RadarContact} (hc : c ∈ l) (hc' : c' ∈ l) (h : c'.body = c.body) : c' = c := by
  have h1 := filter_body_eq_singleton l hnd c hc
  have h2 : c' ∈ l.filter (fun x => decide (x.body = c.body)) :=
    List.mem_filter.2 ⟨hc', by simp [h]⟩
  rw [h1] at h2
  simpa using h2

/-- In every reachable state no dynamic contact refers to the owner. -/
theorem owner_not_contact {s : Sensors} (h : Reachable s) :
    ∀ c ∈ s.m_radarContacts, c.body ≠ some s.m_owner := by
  induction h with
  | init owner => simp [Sensors.new]
  | @update s s' w t hr hu ih =>
    by_cases hp : s.m_owner = w.player
    · rw [update_player_closed (inv_of_reachable hr) w t hp] at hu
      have hs' := (Option.some.inj hu).symm
      subst hs'
      intro c hc
      dsimp only at hc ⊢
      rcases List.mem_append.1 hc with hc | hc
      · obtain ⟨c0, hc0, rfl⟩ := List.mem_map.1 hc
        rw [refreshed_body, setFresh_body]
        exact ih c0 (List.mem_filter.1 hc0).1
      · obtain ⟨b, hb, rfl⟩ := List.mem_map.1 hc
        rw [refreshed_body, newContact_body]
        have hob := ((mem_insertedList w s.m_owner _ _ b).1 hb).2.1
        have := ((observed_iff w s.m_owner b).1 hob).2.2
        simpa using this
    · rw [update_not_player s w t hp] at hu
      exact (Option.some.inj hu) ▸ ih
  | @chooseTarget s s' w crit tgt tgt' found _ hc ih =>
    have hs' := chooseTarget_state hc
    subst hs'
    intro c hc'
    exact ih c ((listSort_perm ContactDistanceSort _).mem_iff.1 hc')
  | @updateIFF s s' w b hr hu ih =>
    cases b with
    | none =>
      rw [updateIFF_none_eq (inv_of_reachable hr) w] at hu
      exact (Option.some.inj hu) ▸ ih
    | some b =>
      rw [updateIFF_some_eq (inv_of_reachable hr) w b] at hu
      have hs' := (Option.some.inj hu).symm
      subst hs'
      intro c hc
      dsimp only at hc ⊢
      obtain ⟨c0, hc0, rfl⟩ := List.mem_map.1 hc
      rw [reclassified_body]
      exact ih c0 hc0
  | @resetTrails s s' w hr hu ih =>
    rw [resetTrails_eq (inv_of_reachable hr) w] at hu
    have hs' := (Option.some.inj hu).symm
    subst hs'
    intro c hc
    dsimp only at hc ⊢
    obtain ⟨c0, hc0, rfl⟩ := List.mem_map.1 hc
    exact ih c0 hc0

theorem inv_trail {s : Sensors} (h : Inv s) : ∀ c ∈ s.m_radarContacts, c.trail ≠ none := by
  intro c hc
  obtain ⟨_, _, tr, htr, _⟩ := h.2 c hc
  simp [htr]

/-- After `Update` by the player's ship on a state satisfying the invariant, a contact with
the body of a contact `c` of the list before is `c` with the update of the second loop. -/
theorem survivor_eq {s : Sensors} (h : Inv s) (w : World) (t : Nat) (c c' : RadarContact)
    (hc : c ∈ s.m_radarContacts)
    (hc' : c' ∈
      (s.m_radarContacts.filter
          (reobserved w s.m_owner (w.GetBodiesMaybeNear s.m_owner 100000))).map
        (fun c => refreshed w s.m_owner t (setFresh c)) ++
        (insertedList w s.m_owner s.m_radarContacts
          (w.GetBodiesMaybeNear s.m_owner 100000)).map
          (fun b => refreshed w s.m_owner t (newContact w s.m_owner b)))
    (hb : c'.body = c.body) :
    c' = refreshed w s.m_owner t (setFresh c) ∧
      reobserved w s.m_owner (w.GetBodiesMaybeNear s.m_owner 100000) c = true := by
  rcases List.mem_append.1 hc' with hc' | hc'
  · obtain ⟨c0, hc0, rfl⟩ := List.mem_map.1 hc'
    rw [refreshed_body, setFresh_body] at hb
    obtain ⟨hc0m, hc0q⟩ := List.mem_filter.1 hc0
    have := eq_of_body_eq h.1 hc hc0m hb
    subst this
    exact ⟨rfl, hc0q⟩
  · obtain ⟨b, hbm, rfl⟩ := List.mem_map.1 hc'
    rw [refreshed_body, newContact_body] at hb
    exact absurd hb.symm (((mem_insertedList w s.m_owner _ _ b).1 hbm).2.2 c hc)

theorem reobserved_iff (w : World) (o : Body) (nearby : List Body) (c : RadarContact) :
    reobserved w o nearby c = true ↔
      ∃ b, c.body = some b ∧ b ∈ nearby ∧ w.IsType b ObjectType.SHIP = true ∧
        w.IsDead b = false ∧ b ≠ o := by
  unfold reobserved
  cases hb : c.body with
  | none => simp
  | some b =>
    simp only [Bool.and_eq_true, decide_eq_true_eq, observed_iff, Option.some.injEq,
      exists_eq_left']

/-! ## The vector binding -/

theorem luaL_checknumber_ok (cvt : String → Option LuaNumber) (L : List LuaValue) (idx : Nat)
    (a : LuaValue) (x : LuaNumber) (ha : lua_at L idx = some a) (hx : toNumber cvt a = some x) :
    luaL_checknumber cvt L idx = Except.ok x := by
  simp [luaL_checknumber, ha, hx]

theorem luaL_checknumber_error (cvt : String → Option LuaNumber) (L : List LuaValue)
    (idx : Nat) (h : (lua_at L idx).bind (toNumber cvt) = none) :
    luaL_checknumber cvt L idx = Except.error (LuaError.badArgument idx) := by
  simp [luaL_checknumber, h]

theorem toNumber_vector2 (cvt : String → Option LuaNumber) (v : vector2d) :
    toNumber cvt (LuaValue.vector2 v) = none := rfl

theorem getFromLua_of_number (cvt : String → Option LuaNumber) (self a : LuaValue)
    (rest : List LuaValue) (x : LuaNumber) (hx : toNumber cvt a = some x) :
    LuaVector2.GetFromLua (self :: a :: rest) 2 = none := by
  cases a <;> simp [LuaVector2.GetFromLua, lua_at, toNumber] at hx ⊢

theorem firstChar_eq_iff (key : String) (c : Char) (hc : c ≠ Char.ofNat 0) :
    firstChar key = c ↔ key.data.head? = some c := by
  unfold firstChar
  cases key.data with
  | nil =>
    simp only [List.headD_nil, List.head?_nil]
    constructor
    · intro h
      exact absurd h.symm hc
    · intro h
      cases h
  | cons a l => simp

theorem update_bodies_observed {s : Sensors} (hreach : Reachable s) (w : World) (t : Nat)
    (hp : s.m_owner = w.player) (s' : Sensors) (hu : s.Update w t = some s') :
    ∀ c ∈ s'.m_radarContacts, ∃ b, c.body = some b ∧ w.IsType b ObjectType.SHIP = true := by
  have hinv := inv_of_reachable hreach
  rw [update_player_closed hinv w t hp] at hu
  have hs' := (Option.some.inj hu).symm
  subst hs'
  intro c hc
  dsimp only at hc
  rcases List.mem_append.1 hc with hc | hc
  · obtain ⟨c0, hc0, rfl⟩ := List.mem_map.1 hc
    obtain ⟨b, hb, _, hship, _⟩ := (reobserved_iff w s.m_owner _ c0).1 (List.mem_filter.1 hc0).2
    exact ⟨b, by rw [refreshed_body, setFresh_body, hb], hship⟩
  · obtain ⟨b, hb, rfl⟩ := List.mem_map.1 hc
    have hob := ((mem_insertedList w s.m_owner _ _ b).1 hb).2.1
    exact ⟨b, by rw [refreshed_body, newContact_body], ((observed_iff w s.m_owner b).1 hob).1⟩

theorem filter_map_body_singleton (f : Body → RadarContact) (hf : ∀ x, (f x).body = some x)
    (b : Body) :
    ∀ l : List Body, l.Nodup → b ∈ l →
      (l.map f).filter (fun x => decide (x.body = some b)) = [f b]
  | [], _, hb => by simp at hb
  | a :: l, hnd, hb => by
    rw [List.nodup_cons] at hnd
    have hnone : ∀ l' : List Body, b ∉ l' →
        (l'.map f).filter (fun x => decide (x.body = some b)) = [] := by
      intro l' hl'
      rw [List.filter_eq_nil_iff]
      intro x hx
      obtain ⟨y, hy, rfl⟩ := List.mem_map.1 hx
      simp only [hf, Option.some.injEq, decide_eq_true_eq]
      intro hyb
      exact hl' (hyb ▸ hy)
    by_cases hab : a = b
    · subst hab
      simp [List.filter_cons, hf, hnone l hnd.1]
    · have hbl : b ∈ l := by
        rcases List.mem_cons.1 hb with h | h
        · exact absurd h.symm hab
        · exact h
      simp [List.filter_cons, hf, hab, filter_map_body_singleton f hf b l hnd.2 hbl]

/-! ## The claims -/

/-- C1 (membership equals observation): in every reachable state, `Update` run by the
player's ship returns, and afterwards a body is the body of some dynamic contact if and
only if it occurs in the query result, is a ship, is not dead and is not the owner. -/
theorem update_membership_eq_observation (s : Sensors) (hreach : Reachable s) (w : World)
    (time : Nat) (hplayer : s.m_owner = w.player) :
    ∃ s', s.Update w time = some s' ∧
      ∀ b : Body, (∃ c ∈ s'.m_radarContacts, c.body = some b) ↔
        (b ∈ w.GetBodiesMaybeNear s.m_owner 100000 ∧ w.IsType b ObjectType.SHIP = true ∧
          w.IsDead b = false ∧ b ≠ s.m_owner) := by
  have hinv := inv_of_reachable hreach
  refine ⟨_, update_player_eq hinv w time hplayer, ?_⟩
  have hm := markNearby_inv w s.m_owner (w.GetBodiesMaybeNear s.m_owner 100000) _ _
    (markInv_of_inv hinv)
  intro b
  dsimp only
  rw [← observed_iff]
  constructor
  · rintro ⟨c, hc, hcb⟩
    obtain ⟨c0, hc0, rfl⟩ := List.mem_map.1 hc
    rw [refreshed_body] at hcb
    obtain ⟨hc0m, hc0f⟩ := List.mem_filter.1 hc0
    obtain ⟨b', hb', hf, _⟩ := hm.2.1 c0 hc0m
    have hbb : b' = b := by simpa [hb'] using hcb
    subst hbb
    rcases hf.1 hc0f with hF | hP
    · exact hF.elim
    · exact hP
  · intro hP
    obtain ⟨c0, hc0, hcb⟩ := hm.2.2 b (Or.inr hP)
    obtain ⟨b', hb', hf, _⟩ := hm.2.1 c0 hc0
    have hbb : b' = b := by simpa [hb'] using hcb
    subst hbb
    refine ⟨refreshed w s.m_owner time c0, ?_, by rw [refreshed_body, hcb]⟩
    exact List.mem_map_of_mem _ (List.mem_filter.2 ⟨hc0, hf.2 (Or.inr hP)⟩)

/-- Witness of C1: from the reachable `tieState`, whose contacts are those of the ships 3, 2
and 4, an `Update` whose query result holds 3, the dead ship 4 and the planet 12 leaves
the contact of ship 3 alone. -/
theorem update_membership_eq_observation_witness :
    (tieState.Update exampleWorld3 7).map (fun s' => s'.m_radarContacts.map (fun c => c.body))
      = some [some 3] ∧
    ∃ s', tieState.Update exampleWorld3 7 = some s' ∧
      ∀ b : Body, (∃ c ∈ s'.m_radarContacts, c.body = some b) ↔
        (b ∈ exampleWorld3.GetBodiesMaybeNear tieState.m_owner 100000 ∧
          exampleWorld3.IsType b ObjectType.SHIP = true ∧
          exampleWorld3.IsDead b = false ∧ b ≠ tieState.m_owner) :=
  ⟨by decide,
    update_membership_eq_observation tieState tieState_reachable exampleWorld3 7 rfl⟩

/-- C2 (uniqueness): in every reachable state no two distinct dynamic contacts have the
same body. -/
theorem reachable_bodies_unique (s : Sensors) (hreach : Reachable s) :
    s.m_radarContacts.Pairwise (fun a b => a.body ≠ b.body) := by
  have h := (inv_of_reachable hreach).1
  exact (List.pairwise_map).1 h

/-- Witness of C2: the state after an `Update` whose query result lists body 2 twice. -/
theorem reachable_bodies_unique_witness :
    ∃ s', (Sensors.new 1).Update exampleWorld 5 = some s' ∧
      s'.m_radarContacts.map (fun c => c.body) = [some 2, some 3, some 4] ∧
      s'.m_radarContacts.Pairwise (fun a b => a.body ≠ b.body) :=
  ⟨_, rfl, rfl,
    reachable_bodies_unique _ (Reachable.update exampleWorld 5 (Reachable.init 1) rfl)⟩

/-- C3: `CheckIFF` returns Unknown for a body that is not a ship; for a ship it returns
Hostile when the 8-bit relations value is 0, Ally when it is 100 and Neutral for every
other value; it leaves the `Sensors` state as it was. -/
theorem checkIFF_classifies (s : Sensors) (w : World) (other : Body) :
    (w.IsType other ObjectType.SHIP = false → (s.CheckIFF w other).1 = IFF.IFF_UNKNOWN) ∧
    (w.IsType other ObjectType.SHIP = true →
      (w.GetRelations s.m_owner other % 256 = 0 → (s.CheckIFF w other).1 = IFF.IFF_HOSTILE) ∧
      (w.GetRelations s.m_owner other % 256 = 100 → (s.CheckIFF w other).1 = IFF.IFF_ALLY) ∧
      (w.GetRelations s.m_owner other % 256 ≠ 0 → w.GetRelations s.m_owner other % 256 ≠ 100 →
        (s.CheckIFF w other).1 = IFF.IFF_NEUTRAL)) ∧
    (s.CheckIFF w other).2 = s := by
  refine ⟨?_, ?_, rfl⟩
  · intro h
    simp [Sensors.CheckIFF, Pioneer.CheckIFF, h]
  · intro h
    refine ⟨?_, ?_, ?_⟩
    · intro h0
      simp [Sensors.CheckIFF, Pioneer.CheckIFF, h, h0]
    · intro h100
      simp [Sensors.CheckIFF, Pioneer.CheckIFF, h, h100]
    · intro h0 h100
      simp [Sensors.CheckIFF, Pioneer.CheckIFF, h, h0, h100]

/-- Witness of C3: in `exampleWorld` body 12 is no ship, and the ships 2, 3 and 4 have the
relations values 0, 100 and 50. -/
theorem checkIFF_classifies_witness :
    (exampleSensors.CheckIFF exampleWorld 12).1 = IFF.IFF_UNKNOWN ∧
    (exampleSensors.CheckIFF exampleWorld 2).1 = IFF.IFF_HOSTILE ∧
    (exampleSensors.CheckIFF exampleWorld 3).1 = IFF.IFF_ALLY ∧
    (exampleSensors.CheckIFF exampleWorld 4).1 = IFF.IFF_NEUTRAL ∧
    (exampleSensors.CheckIFF exampleWorld 4).2 = exampleSensors :=
  ⟨(checkIFF_classifies exampleSensors exampleWorld 12).1 (by decide),
    ((checkIFF_classifies exampleSensors exampleWorld 2).2.1 (by decide)).1 (by decide),
    ((checkIFF_classifies exampleSensors exampleWorld 3).2.1 (by decide)).2.1 (by decide),
    ((checkIFF_classifies exampleSensors exampleWorld 4).2.1 (by decide)).2.2
      (by decide) (by decide),
    (checkIFF_classifies exampleSensors exampleWorld 4).2.2⟩

/-- C4 (trail colour consistency): from every reachable state `Update` and `UpdateIFF`
return, and in the state each of them leaves every dynamic contact has a trail whose
colour is `IFFColor` of the contact's class. -/
theorem trail_colour_consistent (s : Sensors) (hreach : Reachable s) (w : World) (time : Nat)
    (b : Option Body) :
    (∃ s', s.Update w time = some s' ∧
      ∀ c ∈ s'.m_radarContacts, ∃ tr, c.trail = some tr ∧ tr.color = IFFColor c.iff) ∧
    (∃ s', s.UpdateIFF w b = some s' ∧
      ∀ c ∈ s'.m_radarContacts, ∃ tr, c.trail = some tr ∧ tr.color = IFFColor c.iff) := by
  have hinv := inv_of_reachable hreach
  constructor
  · have hex : ∃ s', s.Update w time = some s' := by
      by_cases hp : s.m_owner = w.player
      · exact ⟨_, update_player_eq hinv w time hp⟩
      · exact ⟨_, update_not_player s w time hp⟩
    obtain ⟨s', hs'⟩ := hex
    exact ⟨s', hs', fun c hc => ((inv_update hinv w time hs').2 c hc).2.2⟩
  · have hex : ∃ s', s.UpdateIFF w b = some s' := by
      cases b with
      | none => exact ⟨_, updateIFF_none_eq hinv w⟩
      | some b => exact ⟨_, updateIFF_some_eq hinv w b⟩
    obtain ⟨s', hs'⟩ := hex
    exact ⟨s', hs', fun c hc => ((inv_updateIFF hinv w b hs').2 c hc).2.2⟩

/-- Witness of C4: from the reachable `tieState`, `Update` in `exampleWorld` and `UpdateIFF`
on body 2 in `exampleWorld2`, where the class of body 2 has changed from Hostile to
Ally. -/
theorem trail_colour_consistent_witness :
    (tieState.UpdateIFF exampleWorld2 (some 2)).map
        (fun s' => s'.m_radarContacts.map (fun c => (c.iff, c.trail.map (fun tr => tr.color))))
      = some [(IFF.IFF_ALLY, some Color.GREEN), (IFF.IFF_ALLY, some Color.GREEN),
          (IFF.IFF_NEUTRAL, some Color.BLUE)] ∧
    (∃ s', tieState.Update exampleWorld 7 = some s' ∧
      ∀ c ∈ s'.m_radarContacts, ∃ tr, c.trail = some tr ∧ tr.color = IFFColor c.iff) ∧
    (∃ s', tieState.UpdateIFF exampleWorld2 (some 2) = some s' ∧
      ∀ c ∈ s'.m_radarContacts, ∃ tr, c.trail = some tr ∧ tr.color = IFFColor c.iff) :=
  ⟨by decide, (trail_colour_consistent tieState tieState_reachable exampleWorld 7 none).1,
    (trail_colour_consistent tieState tieState_reachable exampleWorld2 0 (some 2)).2⟩

/-- C5: on a list without null bodies `ChooseTarget` returns; it returns true exactly when
some contact's body is a ship, and then the installed combat target is the body of a ship
contact whose stored distance no ship contact of the list undercuts. -/
theorem chooseTarget_picks_nearest_ship (s : Sensors) (w : World) (crit : TargetingCriteria)
    (tgt : Option Body) (hbody : ∀ c ∈ s.m_radarContacts, c.body ≠ none) :
    ∃ s' tgt' found, s.ChooseTarget w crit tgt = some (s', tgt', found) ∧
      (found = true ↔ ∃ c ∈ s.m_radarContacts, isShipContact w c = true) ∧
      (found = true → ∃ c ∈ s.m_radarContacts, c.body = tgt' ∧ tgt' ≠ none ∧
        isShipContact w c = true ∧
        ∀ c' ∈ s.m_radarContacts, isShipContact w c' = true → c.distance ≤ c'.distance) := by
  obtain ⟨r, hr⟩ := scanTarget_isSome w _ (listSort_body_ne_none hbody)
  cases r with
  | none =>
    refine ⟨_, _, _, chooseTarget_of_scan_none s w crit tgt hr, ?_, by simp⟩
    have hnone := (scanTarget_none_iff w _ (listSort_body_ne_none hbody)).1 hr
    simp only [Bool.false_eq_true, false_iff, not_exists, not_and]
    intro c hc
    rw [hnone c ((listSort_perm ContactDistanceSort _).mem_iff.2 hc)]
    simp
  | some b =>
    refine ⟨_, _, _, chooseTarget_of_scan_some s w crit tgt b hr, ?_, ?_⟩
    · obtain ⟨c, hc, _, hs, _⟩ := scan_sorted_nearest w _ b hr
      simp only [true_iff]
      exact ⟨c, hc, hs⟩
    · intro _
      obtain ⟨c, hc, hcb, hs, hmin⟩ := scan_sorted_nearest w _ b hr
      exact ⟨c, hc, hcb, by simp, hs, hmin⟩

/-- Witness of C5: ships at the distances 500, 200 and 800 give the one at 200. -/
theorem chooseTarget_picks_nearest_ship_witness :
    (exampleSensors.ChooseTarget exampleWorld TargetingCriteria.TARGET_NEAREST_HOSTILE none).map
        (fun r => r.2) = some (some 3, true) ∧
    ∃ s' tgt' found,
      exampleSensors.ChooseTarget exampleWorld TargetingCriteria.TARGET_NEAREST_HOSTILE none
        = some (s', tgt', found) ∧
      (found = true ↔ ∃ c ∈ exampleSensors.m_radarContacts,
        isShipContact exampleWorld c = true) ∧
      (found = true → ∃ c ∈ exampleSensors.m_radarContacts, c.body = tgt' ∧ tgt' ≠ none ∧
        isShipContact exampleWorld c = true ∧
        ∀ c' ∈ exampleSensors.m_radarContacts, isShipContact exampleWorld c' = true →
          c.distance ≤ c'.distance) :=
  ⟨by decide,
    chooseTarget_picks_nearest_ship exampleSensors exampleWorld
      TargetingCriteria.TARGET_NEAREST_HOSTILE none (by decide)⟩

/-- C6: on a list without null bodies that holds no ship contact (the empty list included)
`ChooseTarget` returns false and the owner's combat target is what it was before the
call. -/
theorem chooseTarget_no_match (s : Sensors) (w : World) (crit : TargetingCriteria)
    (tgt : Option Body) (hbody : ∀ c ∈ s.m_radarContacts, c.body ≠ none)
    (hnone : ∀ c ∈ s.m_radarContacts, isShipContact w c = false) :
    ∃ s', s.ChooseTarget w crit tgt = some (s', tgt, false) := by
  refine ⟨_, chooseTarget_of_scan_none s w crit tgt ?_⟩
  rw [scanTarget_none_iff w _ (listSort_body_ne_none hbody)]
  intro c hc
  exact hnone c ((listSort_perm ContactDistanceSort _).mem_iff.1 hc)

/-- Witness of C6: two contacts that are no ships, and a combat target 9 set before. -/
theorem chooseTarget_no_match_witness :
    ∃ s', ({ exampleSensors with m_radarContacts := exampleNonShips } : Sensors).ChooseTarget
      exampleWorld TargetingCriteria.TARGET_NEAREST_HOSTILE (some 9) = some (s', some 9, false) :=
  chooseTarget_no_match { exampleSensors with m_radarContacts := exampleNonShips } exampleWorld
    TargetingCriteria.TARGET_NEAREST_HOSTILE (some 9) (by decide) (by decide)

/-- Counterexample to C7 as stated: the player's `Sensors` inserts the contacts of the ships
2, 3 and 4 in this order (first `Update`, distances 500, 200, 800), `ChooseTarget` sorts
the list to 3, 2, 4, and the next `Update` finds 2 and 3 both at distance 200. The ship
contacts of smallest distance are then those of 2 and 3, the record of 2 was inserted
first, and `ChooseTarget` installs body 3. -/
theorem chooseTarget_tie_break_not_insertion_order :
    ¬ (∀ (s : Sensors) (order : List (Option Body)), InsertionOrder s order →
        ∀ (w : World) (crit : TargetingCriteria) (tgt : Option Body) (s' : Sensors)
          (tgt' : Option Body), s.ChooseTarget w crit tgt = some (s', tgt', true) →
        ∀ c ∈ s.m_radarContacts, isShipContact w c = true →
          (∀ c' ∈ s.m_radarContacts, isShipContact w c' = true → c.distance ≤ c'.distance) →
          order.indexOf tgt' ≤ order.indexOf c.body) := by
  intro h
  have h2 := h tieState [some 2, some 3, some 4] tieState_insertionOrder exampleWorld2
    TargetingCriteria.TARGET_NEAREST_HOSTILE (some 3) _ (some 3) rfl
    (exampleContact 2 200 IFF.IFF_HOSTILE [TrailCall.Update 5, TrailCall.Update 6])
    (by decide) (by decide) (by decide)
  revert h2
  decide

/-- C7 (amended): in every reachable state `ChooseTarget` returns; it returns true, and
installs a combat target, exactly when some dynamic contact is a ship contact; and the
installed combat target is then the body of the ship contact that stands first in the
dynamic list as the call finds it among the ship contacts of smallest stored distance:
every ship contact before it in that list is strictly farther, every ship contact after
it is at least as far. -/
theorem chooseTarget_tie_break_list_order (s : Sensors) (hreach : Reachable s) (w : World)
    (crit : TargetingCriteria) (tgt : Option Body) :
    ∃ s' tgt' found, s.ChooseTarget w crit tgt = some (s', tgt', found) ∧
      (found = true ↔ ∃ c ∈ s.m_radarContacts, isShipContact w c = true) ∧
      (found = true → ∃ pre c post, s.m_radarContacts = pre ++ c :: post ∧
        c.body = tgt' ∧ tgt' ≠ none ∧ isShipContact w c = true ∧
        (∀ c' ∈ pre, isShipContact w c' = true → c.distance < c'.distance) ∧
        (∀ c' ∈ post, isShipContact w c' = true → c.distance ≤ c'.distance)) := by
  have hbody : ∀ c ∈ s.m_radarContacts, c.body ≠ none :=
    fun c hc => ((inv_of_reachable hreach).2 c hc).2.1
  obtain ⟨r, hr⟩ := scanTarget_isSome w _ (listSort_body_ne_none hbody)
  cases r with
  | none =>
    refine ⟨_, _, _, chooseTarget_of_scan_none s w crit tgt hr, ?_, by simp⟩
    have hnone := (scanTarget_none_iff w _ (listSort_body_ne_none hbody)).1 hr
    simp only [Bool.false_eq_true, false_iff, not_exists, not_and]
    intro c hc
    rw [hnone c ((listSort_perm ContactDistanceSort _).mem_iff.2 hc)]
    simp
  | some b =>
    refine ⟨_, _, _, chooseTarget_of_scan_some s w crit tgt b hr, ?_, fun _ => ?_⟩
    · obtain ⟨c, hc, _, hs, _⟩ := scan_sorted_nearest w _ b hr
      simp only [true_iff]
      exact ⟨c, hc, hs⟩
    · obtain ⟨pre, c, post, hl, hcb, hs, hpre, hpost⟩ := scan_sorted_first w _ b hr
      exact ⟨pre, c, post, hl, hcb, by simp, hs, hpre, hpost⟩

/-- Witness of C7 (amended): in `tieState` the contacts of 3 and 2 tie at distance 200 and
the one of body 3, first in the list, is installed. -/
theorem chooseTarget_tie_break_list_order_witness :
    (tieState.ChooseTarget exampleWorld2 TargetingCriteria.TARGET_NEAREST_HOSTILE none).map
        (fun r => r.2) = some (some 3, true) ∧
    ∃ s' tgt' found,
      tieState.ChooseTarget exampleWorld2 TargetingCriteria.TARGET_NEAREST_HOSTILE none
        = some (s', tgt', found) ∧
      (found = true ↔ ∃ c ∈ tieState.m_radarContacts, isShipContact exampleWorld2 c = true) ∧
      (found = true → ∃ pre c post, tieState.m_radarContacts = pre ++ c :: post ∧
        c.body = tgt' ∧ tgt' ≠ none ∧ isShipContact exampleWorld2 c = true ∧
        (∀ c' ∈ pre, isShipContact exampleWorld2 c' = true → c.distance < c'.distance) ∧
        (∀ c' ∈ post, isShipContact exampleWorld2 c' = true → c.distance ≤ c'.distance)) :=
  ⟨by decide,
    chooseTarget_tie_break_list_order tieState tieState_reachable exampleWorld2
      TargetingCriteria.TARGET_NEAREST_HOSTILE none⟩

/-- C8: on a list without null bodies `ChooseTarget` returns and leaves the stable ascending
sort by distance of the list it found: a permutation of the same records, ascending in
distance, the records of every one distance in the order they had before; the static
list and the owner are unchanged. -/
theorem chooseTarget_sorts_stably (s : Sensors) (w : World) (crit : TargetingCriteria)
    (tgt : Option Body) (hbody : ∀ c ∈ s.m_radarContacts, c.body ≠ none) :
    ∃ s' tgt' found, s.ChooseTarget w crit tgt = some (s', tgt', found) ∧
      s'.m_radarContacts.Perm s.m_radarContacts ∧
      (∀ (i j : Nat) (a b : RadarContact), i < j → s'.m_radarContacts[i]? = some a →
        s'.m_radarContacts[j]? = some b → a.distance ≤ b.distance) ∧
      (∀ d : Nat, s'.m_radarContacts.filter (fun c => decide (c.distance = d))
        = s.m_radarContacts.filter (fun c => decide (c.distance = d))) ∧
      s'.m_staticContacts = s.m_staticContacts ∧ s'.m_owner = s.m_owner := by
  have hsorted : ∀ (i j : Nat) (a b : RadarContact), i < j →
      (listSort ContactDistanceSort s.m_radarContacts)[i]? = some a →
      (listSort ContactDistanceSort s.m_radarContacts)[j]? = some b →
      a.distance ≤ b.distance := by
    intro i j a b hij ha hb
    obtain ⟨hi, rfl⟩ := List.getElem?_eq_some_iff.1 ha
    obtain ⟨hj, rfl⟩ := List.getElem?_eq_some_iff.1 hb
    exact List.pairwise_iff_getElem.1 (listSort_pairwise s.m_radarContacts) i j hi hj hij
  obtain ⟨r, hr⟩ := scanTarget_isSome w _ (listSort_body_ne_none hbody)
  cases r with
  | none =>
    exact ⟨_, _, _, chooseTarget_of_scan_none s w crit tgt hr, listSort_perm _ _, hsorted,
      fun d => listSort_filter_distance d _, rfl, rfl⟩
  | some b =>
    exact ⟨_, _, _, chooseTarget_of_scan_some s w crit tgt b hr, listSort_perm _ _, hsorted,
      fun d => listSort_filter_distance d _, rfl, rfl⟩

/-- Witness of C8: the contacts at 500, 200 and 800 are left in the order 200, 500, 800. -/
theorem chooseTarget_sorts_stably_witness :
    (exampleSensors.ChooseTarget exampleWorld TargetingCriteria.TARGET_NEAREST_HOSTILE none).map
        (fun r => r.1.m_radarContacts.map (fun c => c.distance)) = some [200, 500, 800] ∧
    ∃ s' tgt' found,
      exampleSensors.ChooseTarget exampleWorld TargetingCriteria.TARGET_NEAREST_HOSTILE none
        = some (s', tgt', found) ∧
      s'.m_radarContacts.Perm exampleSensors.m_radarContacts ∧
      (∀ (i j : Nat) (a b : RadarContact), i < j → s'.m_radarContacts[i]? = some a →
        s'.m_radarContacts[j]? = some b → a.distance ≤ b.distance) ∧
      (∀ d : Nat, s'.m_radarContacts.filter (fun c => decide (c.distance = d))
        = exampleSensors.m_radarContacts.filter (fun c => decide (c.distance = d))) ∧
      s'.m_staticContacts = exampleSensors.m_staticContacts ∧
      s'.m_owner = exampleSensors.m_owner :=
  ⟨by decide,
    chooseTarget_sorts_stably exampleSensors exampleWorld
      TargetingCriteria.TARGET_NEAREST_HOSTILE none (by decide)⟩

/-- C9: when the owner is not the player `Update` returns the state unchanged, dynamic and
static contact lists included; so from a newly constructed `Sensors` every sequence of
`Update` calls on a non-player owner returns and leaves both lists empty. -/
theorem update_noop_when_not_player :
    (∀ (s : Sensors) (w : World) (time : Nat), s.m_owner ≠ w.player →
      s.Update w time = some s) ∧
    (∀ (owner : Body) (ticks : List (World × Nat)), (∀ p ∈ ticks, owner ≠ p.1.player) →
      ∃ s', runUpdates (Sensors.new owner) ticks = some s' ∧
        s'.m_radarContacts = [] ∧ s'.m_staticContacts = []) :=
  ⟨update_not_player,
    fun owner ticks h => ⟨_, runUpdates_not_player (Sensors.new owner) ticks h, rfl, rfl⟩⟩

/-- Witness of C9: the `Sensors` of ship 5, which is not the player, with ships in range. -/
theorem update_noop_when_not_player_witness :
    ({ exampleSensors with m_owner := 5 } : Sensors).Update exampleWorld 5
      = some { exampleSensors with m_owner := 5 } ∧
    ∃ s', runUpdates (Sensors.new 5) [(exampleWorld, 5), (exampleWorld2, 6)] = some s' ∧
      s'.m_radarContacts = [] ∧ s'.m_staticContacts = [] :=
  ⟨update_noop_when_not_player.1 { exampleSensors with m_owner := 5 } exampleWorld 5
      (by decide),
    update_noop_when_not_player.2 5 [(exampleWorld, 5), (exampleWorld2, 6)] (by decide)⟩

/-- C10: when every contact of body `b` has a trail, `UpdateIFF(b)` returns; position by
position the list keeps its records, with body, distance and fresh flag unchanged; a
contact of body `b` gets `iff = CheckIFF(b)` and a trail of colour `IFFColor(CheckIFF(b))`,
every other contact is unchanged; owner and static list are unchanged, and when no
contact refers to `b` the whole state is unchanged. -/
theorem updateIFF_reclassifies (s : Sensors) (w : World) (b : Body)
    (htrail : ∀ c ∈ s.m_radarContacts, c.body = some b → c.trail ≠ none) :
    ∃ s', s.UpdateIFF w (some b) = some s' ∧
      s'.m_owner = s.m_owner ∧ s'.m_staticContacts = s.m_staticContacts ∧
      s'.m_radarContacts.length = s.m_radarContacts.length ∧
      (∀ (i : Nat) (c : RadarContact), s.m_radarContacts[i]? = some c →
        ∃ c', s'.m_radarContacts[i]? = some c' ∧
          c'.body = c.body ∧ c'.distance = c.distance ∧ c'.fresh = c.fresh ∧
          (c.body = some b → c'.iff = CheckIFF w s.m_owner b ∧
            ∃ tr, c'.trail = some tr ∧ tr.color = IFFColor (CheckIFF w s.m_owner b)) ∧
          (c.body ≠ some b → c' = c)) ∧
      ((∀ c ∈ s.m_radarContacts, c.body ≠ some b) → s' = s) := by
  refine ⟨{ s with m_radarContacts := s.m_radarContacts.map (reclassified w s.m_owner b) },
    ?_, rfl, rfl, by simp, ?_, ?_⟩
  · unfold Sensors.UpdateIFF
    rw [updateIFFList_some w s.m_owner b _ htrail]
    rfl
  · intro i c hc
    refine ⟨reclassified w s.m_owner b c, by simp [List.getElem?_map, hc],
      reclassified_body _ _ _ _, reclassified_distance _ _ _ _, reclassified_fresh _ _ _ _,
      ?_, ?_⟩
    · intro hb
      have hmem : c ∈ s.m_radarContacts := List.mem_iff_getElem?.2 ⟨i, hc⟩
      cases htr : c.trail with
      | none => exact absurd htr (htrail c hmem hb)
      | some tr =>
        refine ⟨by simp [reclassified, hb], tr.SetColor (IFFColor (CheckIFF w s.m_owner b)),
          by simp [reclassified, hb, htr], rfl⟩
    · intro hb
      simp [reclassified, hb]
  · intro habsent
    have : s.m_radarContacts.map (reclassified w s.m_owner b) = s.m_radarContacts := by
      conv_rhs => rw [← List.map_id s.m_radarContacts]
      apply List.map_congr_left
      intro c hc
      simp [reclassified, habsent c hc]
    rw [this]

/-- Witness of C10: `UpdateIFF` on body 2 in `exampleWorld2`, where its class is now Ally. -/
theorem updateIFF_reclassifies_witness :
    (tieState.UpdateIFF exampleWorld2 (some 2)).map (fun s' => s'.m_radarContacts)
      = some
        [ exampleContact 3 200 IFF.IFF_ALLY [TrailCall.Update 5, TrailCall.Update 6],
          exampleContact 2 200 IFF.IFF_ALLY [TrailCall.Update 5, TrailCall.Update 6],
          exampleContact 4 800 IFF.IFF_NEUTRAL [TrailCall.Update 5, TrailCall.Update 6] ] ∧
    ∃ s', tieState.UpdateIFF exampleWorld2 (some 2) = some s' ∧
      s'.m_owner = tieState.m_owner ∧ s'.m_staticContacts = tieState.m_staticContacts ∧
      s'.m_radarContacts.length = tieState.m_radarContacts.length ∧
      (∀ (i : Nat) (c : RadarContact), tieState.m_radarContacts[i]? = some c →
        ∃ c', s'.m_radarContacts[i]? = some c' ∧
          c'.body = c.body ∧ c'.distance = c.distance ∧ c'.fresh = c.fresh ∧
          (c.body = some 2 → c'.iff = CheckIFF exampleWorld2 tieState.m_owner 2 ∧
            ∃ tr, c'.trail = some tr ∧
              tr.color = IFFColor (CheckIFF exampleWorld2 tieState.m_owner 2)) ∧
          (c.body ≠ some 2 → c' = c)) ∧
      ((∀ c ∈ tieState.m_radarContacts, c.body ≠ some 2) → s' = tieState) :=
  ⟨by decide, updateIFF_reclassifies tieState exampleWorld2 2 (by decide)⟩

/-- C11 (static rebuild): when every dynamic contact has a trail, `Update` run by the
player's ship returns, and whatever the static list held before, it is then the list of
the world's bodies of type Star, Planet, CITYONPLANET or SpaceStation, in world order, one
record each with that body, no trail, distance 0, class Unknown and fresh set; no record
of the dynamic list is a record of the static list, and from a reachable state, in a
world where no body of these four types is a ship, no dynamic contact has the body of a
static record. -/
theorem update_rebuilds_static (s : Sensors) (w : World) (time : Nat)
    (htrail : ∀ c ∈ s.m_radarContacts, c.trail ≠ none) (hplayer : s.m_owner = w.player) :
    ∃ s', s.Update w time = some s' ∧
      s'.m_staticContacts =
        (w.GetBodies.filter (fun b =>
            decide (w.GetType b = ObjectType.STAR ∨ w.GetType b = ObjectType.PLANET ∨
              w.GetType b = ObjectType.CITYONPLANET ∨
              w.GetType b = ObjectType.SPACESTATION))).map
          (fun b =>
            { body := some b, trail := none, distance := 0, iff := IFF.IFF_UNKNOWN,
              fresh := true }) ∧
      (∀ c ∈ s'.m_radarContacts, c ∉ s'.m_staticContacts) ∧
      (Reachable s →
        (∀ b, (w.GetType b = ObjectType.STAR ∨ w.GetType b = ObjectType.PLANET ∨
            w.GetType b = ObjectType.CITYONPLANET ∨ w.GetType b = ObjectType.SPACESTATION) →
          w.IsType b ObjectType.SHIP = false) →
        ∀ c ∈ s'.m_radarContacts, ∀ c' ∈ s'.m_staticContacts, c.body ≠ c'.body) := by
  obtain ⟨cs', hrel, heq⟩ := update_player_struct s w time htrail hplayer
  have hstatic : PopulateStaticContacts w =
      (w.GetBodies.filter (fun b =>
          decide (w.GetType b = ObjectType.STAR ∨ w.GetType b = ObjectType.PLANET ∨
            w.GetType b = ObjectType.CITYONPLANET ∨
            w.GetType b = ObjectType.SPACESTATION))).map
        (fun b =>
          { body := some b, trail := none, distance := 0, iff := IFF.IFF_UNKNOWN,
            fresh := true }) := by
    rw [populateStatic_eq]
    have hfil : w.GetBodies.filter (isLandmark w) =
        w.GetBodies.filter (fun b =>
          decide (w.GetType b = ObjectType.STAR ∨ w.GetType b = ObjectType.PLANET ∨
            w.GetType b = ObjectType.CITYONPLANET ∨
            w.GetType b = ObjectType.SPACESTATION)) := by
      apply List.filter_congr
      intro b _
      cases hty : w.GetType b <;> simp [isLandmark, hty]
    rw [hfil]
    rfl
  refine ⟨_, heq, hstatic, ?_, ?_⟩
  · intro c hc hcs
    dsimp only at hc hcs
    have hnone : c.trail = none := by
      rw [populateStatic_eq] at hcs
      obtain ⟨b, _, rfl⟩ := List.mem_map.1 hcs
      rfl
    have hsome : c.trail ≠ none := by
      rcases List.mem_append.1 hc with hc | hc
      · obtain ⟨c0, hc0, rfl⟩ := List.mem_map.1 hc
        apply refreshed_trail_ne_none
        obtain ⟨c1, hc1, hr⟩ := forall₂_markRel_mem hrel c0 (List.mem_filter.1 hc0).1
        rw [hr.trail]
        exact htrail c1 hc1
      · obtain ⟨b, _, rfl⟩ := List.mem_map.1 hc
        apply refreshed_trail_ne_none
        simp [newContact]
    exact hsome hnone
  · intro hreach hland c hc c' hc' hbody
    obtain ⟨b, hb, hship⟩ := update_bodies_observed hreach w time hplayer _ heq c hc
    dsimp only at hc'
    rw [hstatic] at hc'
    obtain ⟨b', hb', rfl⟩ := List.mem_map.1 hc'
    have hty := (List.mem_filter.1 hb').2
    simp only [decide_eq_true_eq] at hty
    rw [hb] at hbody
    have hbb : b = b' := by simpa using hbody
    subst hbb
    rw [hland b hty] at hship
    exact absurd hship (by simp)

/-- Witness of C11: `Update` of `tieState`, whose static list holds a record of body 12, in
`scenarioWorld` leaves the static records of the planet 20 and the station 21. -/
theorem update_rebuilds_static_witness :
    (tieState.Update scenarioWorld 1).map (fun s' => s'.m_staticContacts)
      = some [RadarContact.ofBody (some 20), RadarContact.ofBody (some 21)] ∧
    ∃ s', tieState.Update scenarioWorld 1 = some s' ∧
      s'.m_staticContacts =
        (scenarioWorld.GetBodies.filter (fun b =>
            decide (scenarioWorld.GetType b = ObjectType.STAR ∨
              scenarioWorld.GetType b = ObjectType.PLANET ∨
              scenarioWorld.GetType b = ObjectType.CITYONPLANET ∨
              scenarioWorld.GetType b = ObjectType.SPACESTATION))).map
          (fun b =>
            { body := some b, trail := none, distance := 0, iff := IFF.IFF_UNKNOWN,
              fresh := true }) ∧
      (∀ c ∈ s'.m_radarContacts, c ∉ s'.m_staticContacts) ∧
      (Reachable tieState →
        (∀ b, (scenarioWorld.GetType b = ObjectType.STAR ∨
            scenarioWorld.GetType b = ObjectType.PLANET ∨
            scenarioWorld.GetType b = ObjectType.CITYONPLANET ∨
            scenarioWorld.GetType b = ObjectType.SPACESTATION) →
          scenarioWorld.IsType b ObjectType.SHIP = false) →
        ∀ c ∈ s'.m_radarContacts, ∀ c' ∈ s'.m_staticContacts, c.body ≠ c'.body) :=
  ⟨by decide, update_rebuilds_static tieState scenarioWorld 1 (by decide) rfl⟩

/-- C12 (insertion): when every dynamic contact has a trail, for a body of the query result
that is a live ship other than the owner and that no dynamic contact refers to, `Update`
run by the player's ship returns and leaves exactly one dynamic contact of that body; its
class is `CheckIFF` of the body in this tick, its trail was constructed on the body with
the colour of that class and then received one `Update(time)` if the body is flying and
one `Reset(noFrameId)` otherwise, and its distance is the owner-relative position
magnitude if the body is flying and 0 otherwise. -/
theorem update_inserts_new_contact (s : Sensors) (w : World) (time : Nat) (b : Body)
    (htrail : ∀ c ∈ s.m_radarContacts, c.trail ≠ none) (hplayer : s.m_owner = w.player)
    (hnear : b ∈ w.GetBodiesMaybeNear s.m_owner 100000)
    (hship : w.IsType b ObjectType.SHIP = true) (halive : w.IsDead b = false)
    (hother : b ≠ s.m_owner) (hnew : ∀ c ∈ s.m_radarContacts, c.body ≠ some b) :
    ∃ s' c, s.Update w time = some s' ∧
      s'.m_radarContacts.filter (fun x => decide (x.body = some b)) = [c] ∧
      c.iff = CheckIFF w s.m_owner b ∧
      c.trail = some
        (if w.shipFlightState b = some FlightState.FLYING then
          (HudTrail.new b (IFFColor (CheckIFF w s.m_owner b))).Update time
        else (HudTrail.new b (IFFColor (CheckIFF w s.m_owner b))).Reset noFrameId) ∧
      c.distance =
        (if w.shipFlightState b = some FlightState.FLYING then w.relPosLength s.m_owner b
        else 0) ∧
      c.fresh = false := by
  obtain ⟨cs', hrel, hupd⟩ := update_player_struct s w time htrail hplayer
  have hmem : b ∈ insertedList w s.m_owner s.m_radarContacts
      (w.GetBodiesMaybeNear s.m_owner 100000) :=
    (mem_insertedList w s.m_owner _ _ b).2
      ⟨hnear, (observed_iff w s.m_owner b).2 ⟨hship, halive, hother⟩, hnew⟩
  have hold : ((cs'.filter (fun c => c.fresh)).map (refreshed w s.m_owner time)).filter
      (fun x => decide (x.body = some b)) = [] := by
    rw [List.filter_eq_nil_iff]
    intro x hx
    obtain ⟨c0, hc0, rfl⟩ := List.mem_map.1 hx
    obtain ⟨c1, hc1, hr⟩ := forall₂_markRel_mem hrel c0 (List.mem_filter.1 hc0).1
    simp only [refreshed_body, hr.body, decide_eq_true_eq]
    exact hnew c1 hc1
  have hins := filter_map_body_singleton
    (fun b => refreshed w s.m_owner time (newContact w s.m_owner b))
    (fun x => by rw [refreshed_body, newContact_body]) b _
    (nodup_firstOccurrences _) hmem
  refine ⟨_, refreshed w s.m_owner time (newContact w s.m_owner b), hupd, ?_, ?_⟩
  · dsimp only
    rw [List.filter_append, hold, List.nil_append]
    exact hins
  · by_cases hfly : w.shipFlightState b = some FlightState.FLYING
    · rw [refreshed_flying w s.m_owner time _ b _ rfl rfl hfly]
      simp [hfly, newContact]
    · rw [refreshed_not_flying w s.m_owner time _ b _ rfl rfl hfly]
      simp [hfly, newContact, RadarContact.new]

/-- Witness of C12: the player at the origin and the flying ship 7 at distance 1000 with the
relations value 50 give one contact, Neutral, at distance 1000, with a blue trail that
received one `Update`. -/
theorem update_inserts_new_contact_witness :
    (Sensors.new 1).Update scenarioWorld 1 = some
      { m_owner := 1
        m_radarContacts :=
          [ { body := some 7
              trail := some { body := 7, color := Color.BLUE, calls := [TrailCall.Update 1] }
              distance := 1000
              iff := IFF.IFF_NEUTRAL
              fresh := false } ]
        m_staticContacts := [RadarContact.ofBody (some 20), RadarContact.ofBody (some 21)] } ∧
    ∃ s' c, (Sensors.new 1).Update scenarioWorld 1 = some s' ∧
      s'.m_radarContacts.filter (fun x => decide (x.body = some 7)) = [c] ∧
      c.iff = CheckIFF scenarioWorld (Sensors.new 1).m_owner 7 ∧
      c.trail = some
        (if scenarioWorld.shipFlightState 7 = some FlightState.FLYING then
          (HudTrail.new 7 (IFFColor (CheckIFF scenarioWorld (Sensors.new 1).m_owner 7))).Update 1
        else
          (HudTrail.new 7 (IFFColor (CheckIFF scenarioWorld (Sensors.new 1).m_owner 7))).Reset
            noFrameId) ∧
      c.distance =
        (if scenarioWorld.shipFlightState 7 = some FlightState.FLYING then
          scenarioWorld.relPosLength (Sensors.new 1).m_owner 7
        else 0) ∧
      c.fresh = false :=
  ⟨by decide,
    update_inserts_new_contact (Sensors.new 1) scenarioWorld 1 7 (by decide) rfl
      (by decide) (by decide) (by decide) (by decide) (by decide)⟩

/-- C13: `IFFColor` maps Unknown to Gray, Neutral to Blue, Ally to Green and Hostile to Red;
the four colours are pairwise distinct, so the colour determines the class. -/
theorem iffColor_total_injective :
    IFFColor IFF.IFF_UNKNOWN = Color.GRAY ∧ IFFColor IFF.IFF_NEUTRAL = Color.BLUE ∧
    IFFColor IFF.IFF_ALLY = Color.GREEN ∧ IFFColor IFF.IFF_HOSTILE = Color.RED ∧
    (∀ i j : IFF, IFFColor i = IFFColor j → i = j) := by
  refine ⟨rfl, rfl, rfl, rfl, ?_⟩
  intro i j h
  cases i <;> cases j <;> first | rfl | (exact absurd h (by decide))

/-- Witness of C13: the colours of Ally and Hostile differ. -/
theorem iffColor_total_injective_witness :
    IFFColor IFF.IFF_ALLY ≠ IFFColor IFF.IFF_HOSTILE :=
  fun h => absurd (iffColor_total_injective.2.2.2.2 IFF.IFF_ALLY IFF.IFF_HOSTILE h) (by decide)

/-- Counterexample to C14 as stated: four numbers are none of the three argument shapes,
and `construct_vec3` returns the vector of the first three instead of raising an error. -/
theorem construct_vec3_ignores_extra_arguments :
    ¬ (∀ (cvt : String → Option LuaNumber) (self : LuaValue) (args : List LuaValue),
        ¬ IsOneNumber cvt args → ¬ IsThreeNumbers cvt args → ¬ IsVector2OptNumber cvt args →
        ∃ e, construct_vec3 cvt (self :: args) = Except.error e) := by
  intro h
  obtain ⟨e, he⟩ := h (fun _ => none) LuaValue.other
    [LuaValue.number 1, LuaValue.number 2, LuaValue.number 3, LuaValue.number 4]
    (by rintro ⟨a, x, h, _⟩; simp at h)
    (by rintro ⟨a, b, c, x, y, z, h, _⟩; simp at h)
    (by rintro ⟨v, h | ⟨c, z, h, _⟩⟩ <;> simp at h)
  have hok : construct_vec3 (fun _ => none)
      [LuaValue.other, LuaValue.number 1, LuaValue.number 2, LuaValue.number 3,
        LuaValue.number 4] = Except.ok { x := 1, y := 2, z := 3 } := rfl
  rw [hok] at he
  exact Except.noConfusion he

/-- C14 (amended): `construct_vec3` returns (x, x, x) on exactly one numeric argument x;
(x, y, z) on three numeric arguments, whatever follows them; (v.x, v.y, 0) on a Vector2
alone or followed by nil, and (v.x, v.y, z) on a Vector2 followed by a numeric z, whatever
follows; it returns a vector on no other argument list, and raises an argument error on
exactly two numbers and on a first argument that is neither numeric nor a Vector2. -/
theorem construct_vec3_shapes (cvt : String → Option LuaNumber) :
    (∀ (self a : LuaValue) (x : LuaNumber), toNumber cvt a = some x →
      construct_vec3 cvt [self, a] = Except.ok { x := x, y := x, z := x }) ∧
    (∀ (self a b c : LuaValue) (rest : List LuaValue) (x y z : LuaNumber),
      toNumber cvt a = some x → toNumber cvt b = some y → toNumber cvt c = some z →
      construct_vec3 cvt (self :: a :: b :: c :: rest) = Except.ok { x := x, y := y, z := z }) ∧
    (∀ (self : LuaValue) (v : vector2d),
      construct_vec3 cvt [self, LuaValue.vector2 v] = Except.ok { x := v.x, y := v.y, z := 0 }) ∧
    (∀ (self : LuaValue) (v : vector2d) (rest : List LuaValue),
      construct_vec3 cvt (self :: LuaValue.vector2 v :: LuaValue.nil :: rest)
        = Except.ok { x := v.x, y := v.y, z := 0 }) ∧
    (∀ (self c : LuaValue) (v : vector2d) (rest : List LuaValue) (z : LuaNumber),
      toNumber cvt c = some z →
      construct_vec3 cvt (self :: LuaValue.vector2 v :: c :: rest)
        = Except.ok { x := v.x, y := v.y, z := z }) ∧
    (∀ (L : List LuaValue) (r : vector3d), construct_vec3 cvt L = Except.ok r →
      (∃ self a x, L = [self, a] ∧ toNumber cvt a = some x) ∨
      (∃ self a b c rest x y z, L = self :: a :: b :: c :: rest ∧ toNumber cvt a = some x ∧
        toNumber cvt b = some y ∧ toNumber cvt c = some z) ∨
      (∃ self v, L = [self, LuaValue.vector2 v]) ∨
      (∃ self v rest, L = self :: LuaValue.vector2 v :: LuaValue.nil :: rest) ∨
      (∃ self v c rest z, L = self :: LuaValue.vector2 v :: c :: rest ∧
        toNumber cvt c = some z)) ∧
    (∀ (self a b : LuaValue) (x y : LuaNumber), toNumber cvt a = some x →
      toNumber cvt b = some y →
      construct_vec3 cvt [self, a, b] = Except.error (LuaError.badArgument 4)) ∧
    (∀ (self a : LuaValue) (rest : List LuaValue), toNumber cvt a = none →
      (∀ v, a ≠ LuaValue.vector2 v) →
      construct_vec3 cvt (self :: a :: rest) = Except.error (LuaError.badArgument 2)) := by
  refine ⟨?_, ?_, ?_, ?_, ?_, ?_, ?_, ?_⟩
  · intro self a x hx
    simp [construct_vec3, getFromLua_of_number cvt self a [] x hx, luaL_checknumber, lua_at,
      lua_gettop, hx]
  · intro self a b c rest x y z hx hy hz
    simp [construct_vec3, getFromLua_of_number cvt self a _ x hx, luaL_checknumber, lua_at,
      lua_gettop, hx, hy, hz]
  · intro self v
    rfl
  · intro self v rest
    simp [construct_vec3, LuaVector2.GetFromLua, luaL_optnumber, lua_at]
  · intro self c v rest z hz
    have hopt : luaL_optnumber cvt (self :: LuaValue.vector2 v :: c :: rest) 3 0
        = Except.ok z := by
      cases c <;> simp [toNumber] at hz <;>
        simp [luaL_optnumber, luaL_checknumber, lua_at, toNumber, hz]
    simp [construct_vec3, LuaVector2.GetFromLua, lua_at, hopt]
  · intro L r h
    match L, h with
    | [], h => simp [construct_vec3, LuaVector2.GetFromLua, luaL_checknumber, lua_at] at h
    | [_], h => simp [construct_vec3, LuaVector2.GetFromLua, luaL_checknumber, lua_at] at h
    | self :: a :: rest, h =>
      by_cases hv : ∃ v, a = LuaValue.vector2 v
      · obtain ⟨v, rfl⟩ := hv
        cases rest with
        | nil => exact Or.inr (Or.inr (Or.inl ⟨self, v, rfl⟩))
        | cons c rest' =>
          by_cases hn : c = LuaValue.nil
          · subst hn
            exact Or.inr (Or.inr (Or.inr (Or.inl ⟨self, v, rest', rfl⟩)))
          · cases hz : toNumber cvt c with
            | some z => exact Or.inr (Or.inr (Or.inr (Or.inr ⟨self, v, c, rest', z, rfl, hz⟩)))
            | none =>
              exfalso
              have hopt : luaL_optnumber cvt (self :: LuaValue.vector2 v :: c :: rest') 3 0
                  = Except.error (LuaError.badArgument 3) := by
                cases c <;> simp [toNumber] at hz hn <;>
                  simp [luaL_optnumber, luaL_checknumber, lua_at, toNumber, hz]
              simp [construct_vec3, LuaVector2.GetFromLua, lua_at, hopt] at h
      · have hget : LuaVector2.GetFromLua (self :: a :: rest) 2 = none := by
          cases a <;> simp [LuaVector2.GetFromLua, lua_at] at hv ⊢
        cases hx : toNumber cvt a with
        | none => simp [construct_vec3, hget, luaL_checknumber, lua_at, hx] at h
        | some x =>
          match rest, h with
          | [], _ => exact Or.inl ⟨self, a, x, rfl, hx⟩
          | [b], h =>
            exfalso
            cases hy : toNumber cvt b <;>
              simp [construct_vec3, getFromLua_of_number cvt self a _ x hx, luaL_checknumber,
                lua_at, lua_gettop, hx, hy] at h
          | b :: c :: rest', h =>
            cases hy : toNumber cvt b with
            | none =>
              simp [construct_vec3, getFromLua_of_number cvt self a _ x hx, luaL_checknumber,
                lua_at, lua_gettop, hx, hy] at h
            | some y =>
              cases hz : toNumber cvt c with
              | none =>
                simp [construct_vec3, getFromLua_of_number cvt self a _ x hx, luaL_checknumber,
                  lua_at, lua_gettop, hx, hy, hz] at h
              | some z =>
                exact Or.inr (Or.inl ⟨self, a, b, c, rest', x, y, z, rfl, hx, hy, hz⟩)
  · intro self a b x y hx hy
    simp [construct_vec3, getFromLua_of_number cvt self a _ x hx, luaL_checknumber, lua_at,
      lua_gettop, hx, hy]
  · intro self a rest ha hv
    have hget : LuaVector2.GetFromLua (self :: a :: rest) 2 = none := by
      cases a <;> simp [LuaVector2.GetFromLua, lua_at] at hv ⊢
    simp [construct_vec3, hget, luaL_checknumber, lua_at, ha]

/-- Witness of C14 (amended): one number, four numbers, a Vector2 with a number, two numbers
and a boolean. -/
theorem construct_vec3_shapes_witness :
    construct_vec3 (fun _ => none) [LuaValue.other, LuaValue.number 5]
      = Except.ok { x := 5, y := 5, z := 5 } ∧
    construct_vec3 (fun _ => none)
        [LuaValue.other, LuaValue.number 1, LuaValue.number 2, LuaValue.number 3,
          LuaValue.number 4]
      = Except.ok { x := 1, y := 2, z := 3 } ∧
    construct_vec3 (fun _ => none)
        [LuaValue.other, LuaValue.vector2 { x := 1, y := 2 }, LuaValue.number 7]
      = Except.ok { x := 1, y := 2, z := 7 } ∧
    construct_vec3 (fun _ => none) [LuaValue.other, LuaValue.number 1, LuaValue.number 2]
      = Except.error (LuaError.badArgument 4) ∧
    construct_vec3 (fun _ => none) [LuaValue.other, LuaValue.boolean true]
      = Except.error (LuaError.badArgument 2) :=
  ⟨(construct_vec3_shapes (fun _ => none)).1 LuaValue.other (LuaValue.number 5) 5 rfl,
    (construct_vec3_shapes (fun _ => none)).2.1 LuaValue.other (LuaValue.number 1)
      (LuaValue.number 2) (LuaValue.number 3) [LuaValue.number 4] 1 2 3 rfl rfl rfl,
    (construct_vec3_shapes (fun _ => none)).2.2.2.2.1 LuaValue.other (LuaValue.number 7)
      { x := 1, y := 2 } [] 7 rfl,
    (construct_vec3_shapes (fun _ => none)).2.2.2.2.2.2.1 LuaValue.other (LuaValue.number 1)
      (LuaValue.number 2) 1 2 rfl rfl,
    (construct_vec3_shapes (fun _ => none)).2.2.2.2.2.2.2 LuaValue.other
      (LuaValue.boolean true) [] rfl (by intro v h; cases h)⟩

/-- C15 (no IFF re-derivation on refresh): in every reachable state `Update` run by the
player's ship returns; a contact after it that has the body of a contact before it has
that contact's class and trail colour, whatever `CheckIFF` returns now; and every contact
whose body the query returns again as a live ship has such a contact after it. -/
theorem update_keeps_iff_on_refresh (s : Sensors) (hreach : Reachable s) (w : World)
    (time : Nat) (hplayer : s.m_owner = w.player) :
    ∃ s', s.Update w time = some s' ∧
      (∀ c ∈ s.m_radarContacts, ∀ c' ∈ s'.m_radarContacts, c'.body = c.body →
        c'.iff = c.iff ∧
          c'.trail.map (fun tr => tr.color) = c.trail.map (fun tr => tr.color)) ∧
      (∀ c ∈ s.m_radarContacts, ∀ b : Body, c.body = some b →
        b ∈ w.GetBodiesMaybeNear s.m_owner 100000 → w.IsType b ObjectType.SHIP = true →
        w.IsDead b = false → ∃ c' ∈ s'.m_radarContacts, c'.body = c.body) := by
  have hinv := inv_of_reachable hreach
  refine ⟨_, update_player_closed hinv w time hplayer, ?_, ?_⟩
  · intro c hc c' hc' hb
    obtain ⟨rfl, _⟩ := survivor_eq hinv w time c c' hc hc' hb
    exact ⟨refreshed_iff _ _ _ _, refreshed_trail_color _ _ _ _⟩
  · intro c hc b hcb hnear hship halive
    have hother : b ≠ s.m_owner := fun e => owner_not_contact hreach c hc (e ▸ hcb)
    have hq : reobserved w s.m_owner (w.GetBodiesMaybeNear s.m_owner 100000) c = true :=
      (reobserved_iff w s.m_owner _ c).2 ⟨b, hcb, hnear, hship, halive, hother⟩
    refine ⟨refreshed w s.m_owner time (setFresh c), ?_, by rw [refreshed_body, setFresh_body]⟩
    exact List.mem_append_left _
      (List.mem_map_of_mem (fun c => refreshed w s.m_owner time (setFresh c))
        (List.mem_filter.2 ⟨hc, hq⟩))

/-- Witness of C15: in `tieState` the contact of ship 2 is Hostile with a red trail; in
`exampleWorld2` `CheckIFF` of ship 2 is Ally, and after `Update` the contact is still
Hostile with a red trail. -/
theorem update_keeps_iff_on_refresh_witness :
    CheckIFF exampleWorld2 tieState.m_owner 2 = IFF.IFF_ALLY ∧
    (tieState.Update exampleWorld2 7).map
        (fun s' => s'.m_radarContacts.map
          (fun c => (c.body, c.iff, c.trail.map (fun tr => tr.color))))
      = some [(some 3, IFF.IFF_ALLY, some Color.GREEN), (some 2, IFF.IFF_HOSTILE, some Color.RED),
          (some 4, IFF.IFF_NEUTRAL, some Color.BLUE)] ∧
    ∃ s', tieState.Update exampleWorld2 7 = some s' ∧
      (∀ c ∈ tieState.m_radarContacts, ∀ c' ∈ s'.m_radarContacts, c'.body = c.body →
        c'.iff = c.iff ∧
          c'.trail.map (fun tr => tr.color) = c.trail.map (fun tr => tr.color)) ∧
      (∀ c ∈ tieState.m_radarContacts, ∀ b : Body, c.body = some b →
        b ∈ exampleWorld2.GetBodiesMaybeNear tieState.m_owner 100000 →
        exampleWorld2.IsType b ObjectType.SHIP = true →
        exampleWorld2.IsDead b = false → ∃ c' ∈ s'.m_radarContacts, c'.body = c.body) :=
  ⟨by decide, by decide,
    update_keeps_iff_on_refresh tieState tieState_reachable exampleWorld2 7 rfl⟩

/-- C16 (distance update discipline): in every reachable state `Update` run by the player's
ship returns, and for a contact `c` before it and a contact `c'` after it with the same
body: if the body is a ship in flying state, the distance of `c'` is the magnitude of
the owner-relative position and its trail is the trail of `c` after `Update(time)`;
otherwise the distance of `c'` is the distance of `c` and its trail is the trail of `c`
after `Reset(noFrameId)`. -/
theorem update_distance_discipline (s : Sensors) (hreach : Reachable s) (w : World)
    (time : Nat) (hplayer : s.m_owner = w.player) :
    ∃ s', s.Update w time = some s' ∧
      ∀ c ∈ s.m_radarContacts, ∀ c' ∈ s'.m_radarContacts, c'.body = c.body →
        ∃ b tr, c.body = some b ∧ c.trail = some tr ∧
          (w.shipFlightState b = some FlightState.FLYING →
            c'.distance = w.relPosLength s.m_owner b ∧
              c'.trail = some { tr with calls := tr.calls ++ [TrailCall.Update time] }) ∧
          (w.shipFlightState b ≠ some FlightState.FLYING →
            c'.distance = c.distance ∧
              c'.trail = some { tr with calls := tr.calls ++ [TrailCall.Reset noFrameId] }) := by
  have hinv := inv_of_reachable hreach
  refine ⟨_, update_player_closed hinv w time hplayer, ?_⟩
  intro c hc c' hc' hb
  obtain ⟨rfl, _⟩ := survivor_eq hinv w time c c' hc hc' hb
  obtain ⟨_, hbn, tr, htr, _⟩ := hinv.2 c hc
  cases hcb : c.body with
  | none => exact absurd hcb hbn
  | some b =>
    refine ⟨b, tr, rfl, htr, ?_, ?_⟩
    · intro hfly
      rw [refreshed_flying w s.m_owner time (setFresh c) b tr hcb htr hfly]
      exact ⟨rfl, rfl⟩
    · intro hfly
      rw [refreshed_not_flying w s.m_owner time (setFresh c) b tr hcb htr hfly]
      exact ⟨rfl, rfl⟩

/-- Witness of C16: from `tieState`, in a world where ship 2 has docked and every ship
stands at 300, the contacts of the flying ships 3 and 4 get the distance 300 and an
`Update` call, the contact of ship 2 keeps its distance 200 and gets a `Reset` call. -/
theorem update_distance_discipline_witness :
    (tieState.Update exampleWorld4 9).map (fun s' => s'.m_radarContacts) = some
      [ exampleContact 3 300 IFF.IFF_ALLY
          [TrailCall.Update 5, TrailCall.Update 6, TrailCall.Update 9],
        exampleContact 2 200 IFF.IFF_HOSTILE
          [TrailCall.Update 5, TrailCall.Update 6, TrailCall.Reset noFrameId],
        exampleContact 4 300 IFF.IFF_NEUTRAL
          [TrailCall.Update 5, TrailCall.Update 6, TrailCall.Update 9] ] ∧
    ∃ s', tieState.Update exampleWorld4 9 = some s' ∧
      ∀ c ∈ tieState.m_radarContacts, ∀ c' ∈ s'.m_radarContacts, c'.body = c.body →
        ∃ b tr, c.body = some b ∧ c.trail = some tr ∧
          (exampleWorld4.shipFlightState b = some FlightState.FLYING →
            c'.distance = exampleWorld4.relPosLength tieState.m_owner b ∧
              c'.trail = some { tr with calls := tr.calls ++ [TrailCall.Update 9] }) ∧
          (exampleWorld4.shipFlightState b ≠ some FlightState.FLYING →
            c'.distance = c.distance ∧
              c'.trail = some { tr with calls := tr.calls ++ [TrailCall.Reset noFrameId] }) :=
  ⟨by decide, update_distance_discipline tieState tieState_reachable exampleWorld4 9 rfl⟩

/-- C17 (Update does not reorder): when every dynamic contact has a trail, `Update` run by
the player's ship returns, and the list it leaves consists of the surviving contacts of
the list before, in the relative order they had there, each with the update of the second
loop, followed by the inserted contacts in the order in which their bodies first occur
in the query result; the second loop, on any list, keeps exactly the fresh records, each
once and in order. -/
theorem update_keeps_order (s : Sensors) (w : World) (time : Nat)
    (htrail : ∀ c ∈ s.m_radarContacts, c.trail ≠ none) (hplayer : s.m_owner = w.player) :
    (∃ (s' : Sensors) (kept : List RadarContact), s.Update w time = some s' ∧
      kept.Sublist s.m_radarContacts ∧
      s'.m_radarContacts =
        kept.map (fun c => refreshed w s.m_owner time (setFresh c)) ++
          (firstOccurrences
            ((w.GetBodiesMaybeNear s.m_owner 100000).filter
              (fun b => observed w s.m_owner b && !referred s.m_radarContacts b))).map
            (fun b => refreshed w s.m_owner time (newContact w s.m_owner b)) ∧
      s'.m_radarContacts.map (fun c => c.body) =
        kept.map (fun c => c.body) ++
          (firstOccurrences
            ((w.GetBodiesMaybeNear s.m_owner 100000).filter
              (fun b => observed w s.m_owner b && !referred s.m_radarContacts b))).map some) ∧
    (∀ l : List RadarContact, (∀ c ∈ l, c.fresh = true → c.trail ≠ none) →
      sweep w s.m_owner time l =
        some ((l.filter (fun c => c.fresh)).map (refreshed w s.m_owner time))) := by
  refine ⟨?_, fun l hl => sweep_eq w s.m_owner time l hl⟩
  obtain ⟨cs', hrel, heq⟩ := update_player_struct s w time htrail hplayer
  obtain ⟨kept, hsub, hkept⟩ := forall₂_markRel_kept hrel
  refine ⟨_, kept, heq, hsub, ?_, ?_⟩
  · dsimp only
    rw [hkept, List.map_map]
    rfl
  · dsimp only
    rw [hkept]
    simp only [List.map_append, List.map_map]
    congr 1
    · apply List.map_congr_left
      intro c _
      simp [refreshed_body, setFresh_body]
    · apply List.map_congr_left
      intro b _
      simp [refreshed_body, newContact_body]

/-- Witness of C17: from `tieState`, whose contacts are those of the ships 3, 2 and 4, a
query result 5, 4, 6, 5, 3 leaves the contacts of 3 and 4, in this order, followed by
those of 5 and 6. -/
theorem update_keeps_order_witness :
    (tieState.Update exampleWorld5 9).map (fun s' => s'.m_radarContacts.map (fun c => c.body))
      = some [some 3, some 4, some 5, some 6] ∧
    ∃ (s' : Sensors) (kept : List RadarContact), tieState.Update exampleWorld5 9 = some s' ∧
      kept.Sublist tieState.m_radarContacts ∧
      s'.m_radarContacts =
        kept.map (fun c => refreshed exampleWorld5 tieState.m_owner 9 (setFresh c)) ++
          (firstOccurrences
            ((exampleWorld5.GetBodiesMaybeNear tieState.m_owner 100000).filter
              (fun b => observed exampleWorld5 tieState.m_owner b &&
                !referred tieState.m_radarContacts b))).map
            (fun b => refreshed exampleWorld5 tieState.m_owner 9
              (newContact exampleWorld5 tieState.m_owner b)) ∧
      s'.m_radarContacts.map (fun c => c.body) =
        kept.map (fun c => c.body) ++
          (firstOccurrences
            ((exampleWorld5.GetBodiesMaybeNear tieState.m_owner 100000).filter
              (fun b => observed exampleWorld5 tieState.m_owner b &&
                !referred tieState.m_radarContacts b))).map some :=
  ⟨by decide, (update_keeps_order tieState exampleWorld5 9 (by decide) rfl).1⟩

/-- C18 (every dynamic contact owns a trail): in every reachable state every dynamic contact
has a non-null body and a trail, so there are as many trails as dynamic contacts, and
`Update`, `UpdateIFF`, `ResetTrails` and `ChooseTarget` return without dereferencing a
null pointer. -/
theorem contacts_own_trails (s : Sensors) (hreach : Reachable s) :
    (∀ c ∈ s.m_radarContacts, c.body ≠ none ∧ c.trail ≠ none) ∧
    (s.m_radarContacts.filterMap (fun c => c.trail)).length = s.m_radarContacts.length ∧
    (∀ (w : World) (time : Nat), ∃ s', s.Update w time = some s') ∧
    (∀ (w : World) (b : Option Body), ∃ s', s.UpdateIFF w b = some s') ∧
    (∀ w : World, ∃ s', s.ResetTrails w = some s') ∧
    (∀ (w : World) (crit : TargetingCriteria) (tgt : Option Body),
      ∃ r, s.ChooseTarget w crit tgt = some r) := by
  have hinv := inv_of_reachable hreach
  have hbody : ∀ c ∈ s.m_radarContacts, c.body ≠ none := fun c hc => (hinv.2 c hc).2.1
  refine ⟨fun c hc => ⟨hbody c hc, inv_trail hinv c hc⟩, ?_, ?_, ?_, ?_, ?_⟩
  · have hlen : ∀ l : List RadarContact, (∀ c ∈ l, c.trail ≠ none) →
        (l.filterMap (fun c => c.trail)).length = l.length := by
      intro l
      induction l with
      | nil => intro _; rfl
      | cons c l ih =>
        intro hl
        cases htr : c.trail with
        | none => exact absurd htr (hl c (List.mem_cons_self _ _))
        | some tr =>
          simp [List.filterMap_cons, htr, ih (fun x hx => hl x (List.mem_cons_of_mem _ hx))]
    exact hlen _ (inv_trail hinv)
  · intro w time
    by_cases hp : s.m_owner = w.player
    · exact ⟨_, update_player_eq hinv w time hp⟩
    · exact ⟨_, update_not_player s w time hp⟩
  · intro w b
    cases b with
    | none => exact ⟨_, updateIFF_none_eq hinv w⟩
    | some b => exact ⟨_, updateIFF_some_eq hinv w b⟩
  · intro w
    exact ⟨_, resetTrails_eq hinv w⟩
  · intro w crit tgt
    obtain ⟨r, hr⟩ := scanTarget_isSome w _ (listSort_body_ne_none hbody)
    cases r with
    | none => exact ⟨_, chooseTarget_of_scan_none s w crit tgt hr⟩
    | some b => exact ⟨_, chooseTarget_of_scan_some s w crit tgt b hr⟩

/-- Witness of C18: the reachable `tieState` with its three contacts and three trails. -/
theorem contacts_own_trails_witness :
    (tieState.m_radarContacts.filterMap (fun c => c.trail)).length = 3 ∧
    (∀ c ∈ tieState.m_radarContacts, c.body ≠ none ∧ c.trail ≠ none) ∧
    (tieState.m_radarContacts.filterMap (fun c => c.trail)).length
      = tieState.m_radarContacts.length ∧
    (∀ (w : World) (time : Nat), ∃ s', tieState.Update w time = some s') ∧
    (∀ (w : World) (b : Option Body), ∃ s', tieState.UpdateIFF w b = some s') ∧
    (∀ w : World, ∃ s', tieState.ResetTrails w = some s') ∧
    (∀ (w : World) (crit : TargetingCriteria) (tgt : Option Body),
      ∃ r, tieState.ChooseTarget w crit tgt = some r) :=
  ⟨by decide, contacts_own_trails tieState tieState_reachable⟩

/-- C19 (freshness reset): after every `Update` run by the player's ship no dynamic contact
is fresh; `ChooseTarget` leaves a permutation of the same records, and `UpdateIFF` and
`ResetTrails` leave every fresh flag in its place; hence in every reachable state no
dynamic contact is fresh, and there `Update` run by the player's ship returns and keeps
a contact of the body of a contact `c` exactly when the first loop marked `c`: its body is
in the query result, a ship, not dead and not the owner. -/
theorem fresh_reset :
    (∀ (s s' : Sensors) (w : World) (time : Nat), s.m_owner = w.player →
      s.Update w time = some s' → ∀ c ∈ s'.m_radarContacts, c.fresh = false) ∧
    (∀ (s s' : Sensors) (w : World) (crit : TargetingCriteria) (tgt tgt' : Option Body)
      (found : Bool), s.ChooseTarget w crit tgt = some (s', tgt', found) →
      s'.m_radarContacts.Perm s.m_radarContacts) ∧
    (∀ (s s' : Sensors) (w : World) (b : Option Body), s.UpdateIFF w b = some s' →
      s'.m_radarContacts.map (fun c => c.fresh) = s.m_radarContacts.map (fun c => c.fresh)) ∧
    (∀ (s s' : Sensors) (w : World), s.ResetTrails w = some s' →
      s'.m_radarContacts.map (fun c => c.fresh) = s.m_radarContacts.map (fun c => c.fresh)) ∧
    (∀ s : Sensors, Reachable s → ∀ c ∈ s.m_radarContacts, c.fresh = false) ∧
    (∀ s : Sensors, Reachable s → ∀ (w : World) (time : Nat), s.m_owner = w.player →
      ∃ s', s.Update w time = some s' ∧
        ∀ c ∈ s.m_radarContacts,
          (∃ c' ∈ s'.m_radarContacts, c'.body = c.body) ↔
            ∃ b, c.body = some b ∧ b ∈ w.GetBodiesMaybeNear s.m_owner 100000 ∧
              w.IsType b ObjectType.SHIP = true ∧ w.IsDead b = false ∧ b ≠ s.m_owner) := by
  refine ⟨?_, ?_, ?_, ?_, ?_, ?_⟩
  · intro s s' w time hp hu
    unfold Sensors.Update at hu
    simp only [hp, ne_eq, not_true_eq_false, if_false] at hu
    cases hs : sweep w w.player time
        (markNearby w w.player s.m_radarContacts (w.GetBodiesMaybeNear w.player 100000)) with
    | none => simp [hs] at hu
    | some l =>
      simp only [hs, Option.map_some', Option.some.injEq] at hu
      subst hu
      exact sweep_fresh w w.player time _ l hs
  · intro s s' w crit tgt tgt' found hc
    rw [chooseTarget_state hc]
    exact listSort_perm _ _
  · intro s s' w b hu
    unfold Sensors.UpdateIFF at hu
    cases hl : updateIFFList w s.m_owner b s.m_radarContacts with
    | none => simp [hl] at hu
    | some l =>
      simp only [hl, Option.map_some', Option.some.injEq] at hu
      subst hu
      exact updateIFFList_fresh w s.m_owner b _ l hl
  · intro s s' w hu
    unfold Sensors.ResetTrails at hu
    cases hl : resetTrailsList w s.m_radarContacts with
    | none => simp [hl] at hu
    | some l =>
      simp only [hl, Option.map_some', Option.some.injEq] at hu
      subst hu
      exact resetTrailsList_fresh w _ l hl
  · intro s hreach c hc
    exact ((inv_of_reachable hreach).2 c hc).1
  · intro s hreach w time hp
    have hinv := inv_of_reachable hreach
    refine ⟨_, update_player_closed hinv w time hp, ?_⟩
    intro c hc
    rw [← reobserved_iff]
    constructor
    · rintro ⟨c', hc', hb⟩
      exact (survivor_eq hinv w time c c' hc hc' hb).2
    · intro hq
      refine ⟨refreshed w s.m_owner time (setFresh c), ?_,
        by rw [refreshed_body, setFresh_body]⟩
      exact List.mem_append_left _
        (List.mem_map_of_mem (fun c => refreshed w s.m_owner time (setFresh c))
          (List.mem_filter.2 ⟨hc, hq⟩))

/-- Witness of C19: `Update` of the reachable `tieState` in `exampleWorld3`, where ship 2 has
left the query result and ship 4 is dead, and the operations on `tieState`. -/
theorem fresh_reset_witness :
    (tieState.Update exampleWorld3 7).map
        (fun s' => s'.m_radarContacts.map (fun c => (c.body, c.fresh)))
      = some [(some 3, false)] ∧
    (∀ c ∈ tieState.m_radarContacts, c.fresh = false) ∧
    (∃ s', tieState.Update exampleWorld3 7 = some s' ∧
      ∀ c ∈ tieState.m_radarContacts,
        (∃ c' ∈ s'.m_radarContacts, c'.body = c.body) ↔
          ∃ b, c.body = some b ∧ b ∈ exampleWorld3.GetBodiesMaybeNear tieState.m_owner 100000 ∧
            exampleWorld3.IsType b ObjectType.SHIP = true ∧ exampleWorld3.IsDead b = false ∧
            b ≠ tieState.m_owner) ∧
    (∀ s' : Sensors, tieState.UpdateIFF exampleWorld2 (some 2) = some s' →
      s'.m_radarContacts.map (fun c => c.fresh)
        = tieState.m_radarContacts.map (fun c => c.fresh)) :=
  ⟨by decide, fresh_reset.2.2.2.2.1 tieState tieState_reachable,
    fresh_reset.2.2.2.2.2 tieState tieState_reachable exampleWorld3 7 rfl,
    fun s' h => fresh_reset.2.2.1 tieState s' exampleWorld2 (some 2) h⟩

/-- C20: for a string key and a numeric value, `l_vector_new_index` raises a Lua error
exactly when the first character of the key is none of x, y, z; otherwise it returns the
vector with the component named by that first character set to the value and the other
two unchanged; `l_vector_index` returns a component only for a key of length 1 (in
bytes) whose character is x, y or z. -/
theorem new_index_decides_by_first_char (cvt : String → Option LuaNumber) (v : vector3d)
    (key : String) (val : LuaValue) (n : LuaNumber) (hval : toNumber cvt val = some n) :
    ((∃ e, l_vector_new_index cvt [LuaValue.vector3 v, LuaValue.string key, val]
        = Except.error e) ↔
      (key.data.head? ≠ some 'x' ∧ key.data.head? ≠ some 'y' ∧ key.data.head? ≠ some 'z')) ∧
    (key.data.head? = some 'x' →
      l_vector_new_index cvt [LuaValue.vector3 v, LuaValue.string key, val]
        = Except.ok { x := n, y := v.y, z := v.z }) ∧
    (key.data.head? = some 'y' →
      l_vector_new_index cvt [LuaValue.vector3 v, LuaValue.string key, val]
        = Except.ok { x := v.x, y := n, z := v.z }) ∧
    (key.data.head? = some 'z' →
      l_vector_new_index cvt [LuaValue.vector3 v, LuaValue.string key, val]
        = Except.ok { x := v.x, y := v.y, z := n }) ∧
    (∀ (mt : LuaValue → LuaValue) (m : LuaNumber),
      l_vector_index mt [LuaValue.vector3 v, LuaValue.string key]
        = Except.ok (IndexResult.component m) →
      key.utf8ByteSize = 1 ∧
        ((key.data.head? = some 'x' ∧ m = v.x) ∨ (key.data.head? = some 'y' ∧ m = v.y) ∨
          (key.data.head? = some 'z' ∧ m = v.z))) := by
  have hx := firstChar_eq_iff key 'x' (by decide)
  have hy := firstChar_eq_iff key 'y' (by decide)
  have hz := firstChar_eq_iff key 'z' (by decide)
  have hnum : luaL_checknumber cvt [LuaValue.vector3 v, LuaValue.string key, val] 3
      = Except.ok n := by
    simp [luaL_checknumber, lua_at, hval]
  have hnew : l_vector_new_index cvt [LuaValue.vector3 v, LuaValue.string key, val] =
      if firstChar key = 'x' then Except.ok { x := n, y := v.y, z := v.z }
      else if firstChar key = 'y' then Except.ok { x := v.x, y := n, z := v.z }
      else if firstChar key = 'z' then Except.ok { x := v.x, y := v.y, z := n }
      else Except.error (LuaError.indexNotAvailable key) := by
    simp [l_vector_new_index, LuaVector.CheckFromLua, lua_at, hnum]
  refine ⟨?_, ?_, ?_, ?_, ?_⟩
  · rw [hnew, ne_eq, ne_eq, ne_eq, ← hx, ← hy, ← hz]
    by_cases h1 : firstChar key = 'x'
    · simp [h1]
    · by_cases h2 : firstChar key = 'y'
      · simp [h1, h2]
      · by_cases h3 : firstChar key = 'z'
        · simp [h1, h2, h3]
        · simp [h1, h2, h3]
  · intro h
    rw [hnew, if_pos (hx.2 h)]
  · intro h
    have h1 : firstChar key ≠ 'x' := by
      rw [hy.2 h]
      decide
    rw [hnew, if_neg h1, if_pos (hy.2 h)]
  · intro h
    have h1 : firstChar key ≠ 'x' := by
      rw [hz.2 h]
      decide
    have h2 : firstChar key ≠ 'y' := by
      rw [hz.2 h]
      decide
    rw [hnew, if_neg h1, if_neg h2, if_pos (hz.2 h)]
  · intro mt m h
    have hidx : l_vector_index mt [LuaValue.vector3 v, LuaValue.string key] =
        if key.utf8ByteSize = 1 then
          if firstChar key = 'x' then Except.ok (IndexResult.component v.x)
          else if firstChar key = 'y' then Except.ok (IndexResult.component v.y)
          else if firstChar key = 'z' then Except.ok (IndexResult.component v.z)
          else Except.ok (IndexResult.metafield (mt (LuaValue.string key)))
        else Except.ok (IndexResult.metafield (mt (LuaValue.string key))) := by
      simp [l_vector_index, LuaVector.CheckFromLua, lua_at]
    rw [hidx] at h
    by_cases hlen : key.utf8ByteSize = 1
    · refine ⟨hlen, ?_⟩
      rw [← hx, ← hy, ← hz]
      rw [if_pos hlen] at h
      by_cases h1 : firstChar key = 'x'
      · rw [if_pos h1] at h
        simp only [Except.ok.injEq, IndexResult.component.injEq] at h
        exact Or.inl ⟨h1, h.symm⟩
      · by_cases h2 : firstChar key = 'y'
        · rw [if_neg h1, if_pos h2] at h
          simp only [Except.ok.injEq, IndexResult.component.injEq] at h
          exact Or.inr (Or.inl ⟨h2, h.symm⟩)
        · by_cases h3 : firstChar key = 'z'
          · rw [if_neg h1, if_neg h2, if_pos h3] at h
            simp only [Except.ok.injEq, IndexResult.component.injEq] at h
            exact Or.inr (Or.inr ⟨h3, h.symm⟩)
          · rw [if_neg h1, if_neg h2, if_neg h3] at h
            simp at h
    · simp [hlen] at h

/-- Witness of C20: the key xyz sets the component x through `l_vector_new_index` and is no
component for `l_vector_index`; the key w raises the error. -/
theorem new_index_decides_by_first_char_witness :
    l_vector_new_index (fun _ => none)
        [LuaValue.vector3 { x := 1, y := 2, z := 3 }, LuaValue.string "xyz", LuaValue.number 9]
      = Except.ok { x := 9, y := 2, z := 3 } ∧
    l_vector_index (fun _ => LuaValue.nil)
        [LuaValue.vector3 { x := 1, y := 2, z := 3 }, LuaValue.string "xyz"]
      = Except.ok (IndexResult.metafield LuaValue.nil) ∧
    l_vector_index (fun _ => LuaValue.nil)
        [LuaValue.vector3 { x := 1, y := 2, z := 3 }, LuaValue.string "y"]
      = Except.ok (IndexResult.component 2) ∧
    ∃ e, l_vector_new_index (fun _ => none)
        [LuaValue.vector3 { x := 1, y := 2, z := 3 }, LuaValue.string "w", LuaValue.number 9]
      = Except.error e :=
  ⟨(new_index_decides_by_first_char (fun _ => none) { x := 1, y := 2, z := 3 } "xyz"
      (LuaValue.number 9) 9 rfl).2.1 (by decide),
    rfl, rfl,
    (new_index_decides_by_first_char (fun _ => none) { x := 1, y := 2, z := 3 } "w"
      (LuaValue.number 9) 9 rfl).1.2 (by decide)⟩

end Pioneer
